import Mathlib

/-!
# Pishoo-Ai: chat sessions of the front end

A shallow embedding of the session handling of `frontend/src/App.jsx` and
`frontend/src/components/ChatInterface.jsx`, of the settings of
`frontend/src/components/Settings.jsx` and of the date label of
`frontend/src/components/Sidebar.jsx`.

* React state is passed explicitly: a state setter called with a function
  (`setChats(prev => ...)`) is applied to the state it finds, a setter called
  with a value overwrites it.
* A variable that a handler reads from its closure (`currentChat` inside
  `updateChat` and `deleteChat`) is an explicit argument, so that a handler
  that runs after an `await` can be given the value it captured before.
* Every reading of the clock (`Date.now()`, `new Date()`) is an explicit
  argument, in milliseconds since the epoch.
* An `async` handler is split at its `await`: the part before it, and the
  part after it, which runs on what the handler held when it was suspended.
* An effect (`useEffect`) runs after a render and is a function of its own,
  to be applied after the handler whose render runs it.
* `JSON.parse` and `JSON.stringify` belong to the platform: on the stored
  session list they are parameters, and a file to import is given by what
  `JSON.parse` makes of its text.
* Strings are sequences of Unicode code points; for text of the Basic
  Multilingual Plane this is the indexing JavaScript uses.
-/

namespace Pishoo

/-! ## Strings, numbers and dates of the platform -/

/-- White space and line terminators of ECMAScript, the characters that
`String.prototype.trim` removes. -/
def isWhiteSpace (c : Char) : Bool :=
  let n := c.toNat
  n = 0x09 || n = 0x0A || n = 0x0B || n = 0x0C || n = 0x0D || n = 0x20 ||
  n = 0xA0 || n = 0x1680 || (0x2000 ≤ n && n ≤ 0x200A) ||
  n = 0x2028 || n = 0x2029 || n = 0x202F || n = 0x205F || n = 0x3000 || n = 0xFEFF

/-- Model of `String.prototype.trim` on the characters of a string. -/
def trimChars (cs : List Char) : List Char :=
  ((cs.dropWhile isWhiteSpace).reverse.dropWhile isWhiteSpace).reverse

/-- Model of `s.trim()`. -/
def trim (s : String) : String :=
  String.mk (trimChars s.data)

/-- Model of `s.length`. -/
def jsLength (s : String) : Nat :=
  s.data.length

/-- Model of `s.substring(0, n)`. -/
def substring0 (s : String) (n : Nat) : String :=
  String.mk (s.data.take n)

/-- The character of a decimal digit. -/
def digitChar (d : Nat) : Char :=
  Char.ofNat (48 + d)

/-- Decimal digits of `n`, most significant first; `fuel` bounds the number
of digits. -/
def decimalDigits : Nat → Nat → List Char
  | 0, _ => []
  | fuel + 1, n =>
    if n < 10 then [digitChar n]
    else decimalDigits fuel (n / 10) ++ [digitChar (n % 10)]

/-- Model of `n.toString()` for a non-negative integer. -/
def numberToString (n : Nat) : String :=
  String.mk (decimalDigits (n + 1) n)

/-- Decimal rendering of `n` padded with zeros on the left to `width` digits. -/
def padZero (width n : Nat) : String :=
  let ds := decimalDigits (n + 1) n
  String.mk (List.replicate (width - ds.length) '0' ++ ds)

/-- Year, month and day of the proleptic Gregorian calendar for a number of
days since 1970-01-01. -/
def civilFromDays (days : Nat) : Nat × Nat × Nat :=
  let z := days + 719468
  let era := z / 146097
  let doe := z - era * 146097
  let yoe := (doe - doe / 1460 + doe / 36524 - doe / 146096) / 365
  let doy := doe - (365 * yoe + yoe / 4 - yoe / 100)
  let mp := (5 * doy + 2) / 153
  let d := doy - (153 * mp + 2) / 5 + 1
  let m := if mp < 10 then mp + 3 else mp - 9
  let y := yoe + era * 400 + (if m ≤ 2 then 1 else 0)
  (y, m, d)

/-- Model of `new Date(ms).toISOString()` for a time at or after the epoch. -/
def toISOString (ms : Nat) : String :=
  let (y, m, d) := civilFromDays (ms / 86400000)
  let rest := ms % 86400000
  let year := if y ≤ 9999 then padZero 4 y else "+" ++ padZero 6 y
  year ++ "-" ++ padZero 2 m ++ "-" ++ padZero 2 d ++ "T" ++
    padZero 2 (rest / 3600000) ++ ":" ++ padZero 2 (rest / 60000 % 60) ++ ":" ++
    padZero 2 (rest / 1000 % 60) ++ "." ++ padZero 3 (rest % 1000) ++ "Z"

/-! ## Data model -/

/-- A message of a session: `{ id, role, content, timestamp }`.  The content
is `none` when the property holds `undefined`. -/
structure Message where
  id : String
  role : String
  content : Option String
  timestamp : String
deriving DecidableEq

/-- A session object, restricted to the five properties the program reads.
A property that is absent or holds `undefined` is `none`. -/
structure Chat where
  id : Option String := none
  title : Option String := none
  messages : Option (List Message) := none
  createdAt : Option String := none
  model : Option String := none
deriving DecidableEq

/-- The `updates` object handed to `updateChat`.  The outer `none` is a key
the object does not have; `some v` is a key written in the object, with value
`v` (which may itself be `undefined`, that is `none`). -/
structure ChatUpdates where
  id : Option (Option String) := none
  title : Option (Option String) := none
  messages : Option (Option (List Message)) := none
  createdAt : Option (Option String) := none
  model : Option (Option String) := none
deriving DecidableEq

/-- The object spread `{ ...chat, ...updates }`: a key of `updates` wins, a
key that `updates` lacks keeps the value of `chat`. -/
def Chat.spread (chat : Chat) (updates : ChatUpdates) : Chat :=
  { id := updates.id.getD chat.id
    title := updates.title.getD chat.title
    messages := updates.messages.getD chat.messages
    createdAt := updates.createdAt.getD chat.createdAt
    model := updates.model.getD chat.model }

/-- The spread `{ ...prev, ...updates }` where `prev` may be `null`:
spreading `null` contributes no key. -/
def spreadOnto (prev : Option Chat) (updates : ChatUpdates) : Chat :=
  (prev.getD {}).spread updates

/-- A notification shown by `toast.error` or `toast.success`. -/
inductive Toast where
  | error (text : String)
  | success (text : String)
deriving DecidableEq

/-- One part of a request body: `{ text }`. -/
structure RequestPart where
  text : String
deriving DecidableEq

/-- One entry of `contents` in a request body: `{ parts }`. -/
structure RequestContent where
  parts : List RequestPart
deriving DecidableEq

/-- The object that is serialised into the request body: `{ contents }`. -/
structure RequestBody where
  contents : List RequestContent
deriving DecidableEq

/-- A call of `fetch`. -/
structure Request where
  url : String
  method : String
  headers : List (String × String)
  body : RequestBody
deriving DecidableEq

/-- A part of a response candidate; `text` may be missing. -/
structure Part where
  text : Option String
deriving DecidableEq

/-- The `content` of a candidate; `parts` may be missing. -/
structure Content where
  parts : Option (List Part)
deriving DecidableEq

/-- A candidate of a response; `content` may be missing. -/
structure Candidate where
  content : Option Content
deriving DecidableEq

/-- The object that `response.json()` resolves to; `candidates` may be
missing. -/
structure ResponseData where
  candidates : Option (List Candidate)
deriving DecidableEq

/-- How the `fetch` of a send ends: the promise rejects with an error, or it
resolves to a response with its `ok` flag, status and status text, whose
`json()` either rejects with an error message or resolves to an object. -/
inductive FetchOutcome where
  | rejected (message : String)
  | response (ok : Bool) (status : Nat) (statusText : String)
      (json : Except String ResponseData)

/-- The object written to a chat export file, which is also what
`JSON.parse` returns for such a file: `{ title, model, createdAt, messages }`,
a property holding `undefined` being left out of the file. -/
structure ChatData where
  title : Option String := none
  model : Option String := none
  createdAt : Option String := none
  messages : Option (List Message) := none
deriving DecidableEq

/-- The text of a file handed to the chat import, as `JSON.parse` sees it:
either it is not JSON, or it parses to an object. -/
inductive ChatFile where
  | invalid
  | parsed (chatData : ChatData)
deriving DecidableEq

/-- Browser local storage: the stored keys with their values. -/
abbrev Storage := List (String × String)

/-- Model of `localStorage.getItem(key)`; `none` is `null`. -/
def getItem (storage : Storage) (key : String) : Option String :=
  storage.lookup key

/-- Model of `localStorage.removeItem(key)`. -/
def removeItem (storage : Storage) (key : String) : Storage :=
  storage.filter fun entry => entry.1 ≠ key

/-- Model of `localStorage.setItem(key, value)`: the key holds the new value
and no other. -/
def setItem (storage : Storage) (key value : String) : Storage :=
  (key, value) :: removeItem storage key

/-- A JavaScript value, as far as the settings tell values apart: a missing
property, `null`, a boolean, a string, or any other value (a number, an array,
an object) with its truthiness and the string it converts to. -/
inductive JsValue where
  | undefined
  | null
  | bool (b : Bool)
  | string (s : String)
  | other (truthy : Bool) (text : String)
deriving DecidableEq

/-- Truthiness of a value, as `if (value)` tests it. -/
def JsValue.truthy : JsValue → Bool
  | .undefined => false
  | .null => false
  | .bool b => b
  | .string s => s ≠ ""
  | .other truthy _ => truthy

/-- The string a value converts to, as `localStorage.setItem` stores it. -/
def JsValue.toText : JsValue → String
  | .undefined => "undefined"
  | .null => "null"
  | .bool b => if b then "true" else "false"
  | .string s => s
  | .other _ text => text

/-- The state of the application: the state of `App` (`chats`,
`currentChat`), the state of `ChatInterface` (`message`, `isLoading`,
`selectedModel`), the state of `Settings` (`apiKey`, `fontSize`, `autoSave`,
`soundEnabled`), the `theme` of the theme provider, the font size set on the
root element of the document, local storage, and what the program has emitted
so far (calls of `fetch`, notifications). -/
structure World where
  chats : List Chat := []
  currentChat : Option Chat := none
  message : String := ""
  isLoading : Bool := false
  selectedModel : String := "gemini-1.5-flash"
  storage : Storage := []
  requests : List Request := []
  toasts : List Toast := []
  apiKey : String := ""
  fontSize : JsValue := .string "medium"
  autoSave : Bool := true
  soundEnabled : Bool := false
  theme : JsValue := .string "system"
  rootFontSize : Option String := none
deriving DecidableEq

/-! ## `App.jsx`: the session list -/

/-- The object `newChat` that `createNewChat` builds; `now` is the reading of
`Date.now()` and `date` the reading of `new Date()`. -/
def newChat (now date : Nat) : Chat :=
  { id := some (numberToString now)
    title := some "New Chat"
    messages := some []
    createdAt := some (toISOString date)
    model := some "gemini-1.5-flash" }

/-- The function `createNewChat` of `App.jsx`.  It declares no parameter. -/
def createNewChat (now date : Nat) (w : World) : World :=
  let newChat := newChat now date
  { w with chats := newChat :: w.chats, currentChat := some newChat }

/-- The function `updateChat` of `App.jsx`.  `closureCurrent` is the
`currentChat` of the render in which this `updateChat` was created. -/
def updateChat (closureCurrent : Option Chat) (chatId : Option String)
    (updates : ChatUpdates) (w : World) : World :=
  { w with
    chats := w.chats.map fun chat => if chat.id = chatId then chat.spread updates else chat
    currentChat :=
      if closureCurrent.bind (·.id) = chatId then some (spreadOnto w.currentChat updates)
      else w.currentChat }

/-- The function `deleteChat` of `App.jsx`.  `closureCurrent` is the
`currentChat` of the render in which this `deleteChat` was created. -/
def deleteChat (closureCurrent : Option Chat) (chatId : Option String) (w : World) : World :=
  { w with
    chats := w.chats.filter fun chat => chat.id ≠ chatId
    currentChat := if closureCurrent.bind (·.id) = chatId then none else w.currentChat }

/-- The prop `onNewChat` of `ChatInterface`, which `App` binds to
`createNewChat`: an argument passed at the call site is dropped, since
`createNewChat` declares no parameter. -/
def onNewChat (_passed : Chat) (now date : Nat) (w : World) : World :=
  createNewChat now date w

/-- The prop `onChatSelect` of `Sidebar`, which `App` binds to
`setCurrentChat`. -/
def onChatSelect (chat : Chat) (w : World) : World :=
  { w with currentChat := some chat }

/-- A run of `createNewChat` calls, one for each pair of clock readings
(`Date.now()`, `new Date()`), the first pair being the first call. -/
def createNewChats (clock : List (Nat × Nat)) (w : World) : World :=
  clock.foldl (fun w r => createNewChat r.1 r.2 w) w

/-- The clock readings of a run of `createNewChat` calls, in the order in
which they are taken. -/
def clockReadings : List (Nat × Nat) → List Nat
  | [] => []
  | r :: rest => r.1 :: r.2 :: clockReadings rest

/-- The effect of `App` that loads the sessions, run once after the first
render.  `parse` is `JSON.parse` on the stored text: `none` when it throws,
else the list it returns.  The effect has no `try`: an error of `JSON.parse`
leaves the effect as an exception. -/
def loadChatsEffect (parse : String → Option (List Chat)) (w : World) : Except String World :=
  match getItem w.storage "pishoo-chats" with
  | none => .ok w
  | some savedChats =>
    if savedChats = "" then .ok w
    else
      match parse savedChats with
      | none => .error "SyntaxError"
      | some chats => .ok { w with chats := chats }

/-- The effect of `App` that saves the sessions, run after every render in
which `chats` is a new array.  `stringify` is `JSON.stringify` on a list of
sessions. -/
def saveChatsEffect (stringify : List Chat → String) (w : World) : World :=
  { w with storage := setItem w.storage "pishoo-chats" (stringify w.chats) }

/-! ## `ChatInterface.jsx`: sending a message -/

/-- The clock readings of the synchronous part of `handleSendMessage`, in the
order in which they are taken.  The last four are taken only when no session
is selected. -/
structure SendClock where
  /-- Reading of `Date.now()` for `userMessage.id`. -/
  userMessageId : Nat
  /-- Reading of `new Date()` for `userMessage.timestamp`. -/
  userMessageTime : Nat
  /-- Reading of `Date.now()` for the `id` of the local `currentChat`. -/
  localChatId : Nat
  /-- Reading of `new Date()` for the `createdAt` of the local `currentChat`. -/
  localChatCreatedAt : Nat
  /-- Reading of `Date.now()` inside `createNewChat`. -/
  newChatId : Nat
  /-- Reading of `new Date()` inside `createNewChat`. -/
  newChatCreatedAt : Nat
deriving DecidableEq

/-- The clock readings taken when the reply is turned into a message. -/
structure ReplyClock where
  /-- Reading of `Date.now()` for `assistantMessage.id`. -/
  assistantId : Nat
  /-- Reading of `new Date()` for `assistantMessage.timestamp`. -/
  assistantTime : Nat
deriving DecidableEq

/-- What a suspended `handleSendMessage` holds across its `await`: the local
variables `currentChat` and `updatedMessages`, and the `currentChat` of `App`
that its `onUpdateChat` captured. -/
structure Pending where
  currentChat : Chat
  updatedMessages : List Message
  closureCurrent : Option Chat
deriving DecidableEq

/-- The request that `handleSendMessage` hands to `fetch`. -/
def completionRequest (selectedModel apiKey text : String) : Request :=
  { url := "https://generativelanguage.googleapis.com/v1beta/models/" ++ selectedModel ++
      ":generateContent?key=" ++ apiKey
    method := "POST"
    headers := [("Content-Type", "application/json")]
    body := { contents := [{ parts := [{ text := text }] }] } }

/-- The object `userMessage` of `handleSendMessage`; `now` is the reading of
`Date.now()`, `date` the reading of `new Date()` and `message` the text of
the input. -/
def userMessage (now date : Nat) (message : String) : Message :=
  { id := numberToString now
    role := "user"
    content := some (trim message)
    timestamp := toISOString date }

/-- The object `assistantMessage` of `handleSendMessage`; `text` is the value
read at `data.candidates[0].content.parts[0].text`. -/
def assistantMessage (now date : Nat) (text : Option String) : Message :=
  { id := numberToString (now + 1)
    role := "assistant"
    content := text
    timestamp := toISOString date }

/-- The synchronous part of `handleSendMessage`, up to the `await` of the
`fetch`.  The result is the new state and, when a request was made, what the
suspended handler holds. -/
def sendStart (clk : SendClock) (w : World) : World × Option Pending :=
  if trim w.message = "" ∨ w.isLoading = true then (w, none)
  else
    match getItem w.storage "gemini-api-key" with
    | none =>
      ({ w with toasts := w.toasts ++ [Toast.error "Please set your Gemini API key in Settings"] },
        none)
    | some apiKey =>
      if apiKey = "" then
        ({ w with
            toasts := w.toasts ++ [Toast.error "Please set your Gemini API key in Settings"] },
          none)
      else
        let userMessage := userMessage clk.userMessageId clk.userMessageTime w.message
        -- Create new chat if none exists
        let (currentChat, w1) :=
          match w.currentChat with
          | some chat => (chat, w)
          | none =>
            let currentChat : Chat :=
              { id := some (numberToString clk.localChatId)
                title := some (substring0 (trim w.message) 50 ++
                  (if jsLength (trim w.message) > 50 then "..." else ""))
                messages := some []
                createdAt := some (toISOString clk.localChatCreatedAt)
                model := some w.selectedModel }
            (currentChat, onNewChat currentChat clk.newChatId clk.newChatCreatedAt w)
        -- Add user message
        let updatedMessages := currentChat.messages.getD [] ++ [userMessage]
        let w2 := updateChat w.currentChat currentChat.id
          { messages := some (some updatedMessages), model := some (some w.selectedModel) } w1
        ({ w2 with
            message := ""
            isLoading := true
            requests := w2.requests ++
              [completionRequest w.selectedModel apiKey (trim w.message)] },
          some { currentChat := currentChat
                 updatedMessages := updatedMessages
                 closureCurrent := w.currentChat })

/-- The body of the `try` block after the `fetch`: the reply text, or the
message of the error that is thrown.  The text is `none` when the first part
has no `text`.  Reading `parts[0]` of a missing `parts`, or `text` of a
missing first part, throws a `TypeError`, whose wording is the engine's and
is rendered here as its name. -/
def replyText : FetchOutcome → Except String (Option String)
  | .rejected message => .error message
  | .response ok status statusText json =>
    if ok = false then
      .error ("API Error: " ++ numberToString status ++ " - " ++ statusText)
    else
      match json with
      | .error message => .error message
      | .ok data =>
        match data.candidates with
        | none => .error "Invalid response from Gemini API"
        | some [] => .error "Invalid response from Gemini API"
        | some (candidate :: _) =>
          match candidate.content with
          | none => .error "Invalid response from Gemini API"
          | some content =>
            match content.parts with
            | none => .error "TypeError"
            | some [] => .error "TypeError"
            | some (part :: _) => .ok part.text

/-- The part of `handleSendMessage` after the `await`: on a reply the
assistant message is added, on an error the message list is put back, and in
both cases `isLoading` is reset. -/
def sendSettle (p : Pending) (outcome : FetchOutcome) (rclk : ReplyClock) (w : World) : World :=
  match replyText outcome with
  | .ok text =>
    let assistantMessage := assistantMessage rclk.assistantId rclk.assistantTime text
    -- Add assistant message
    let w1 := updateChat p.closureCurrent p.currentChat.id
      { messages := some (some (p.updatedMessages ++ [assistantMessage])) } w
    { w1 with isLoading := false }
  | .error message =>
    let w1 := { w with toasts := w.toasts ++ [Toast.error ("Failed to send message: " ++ message)] }
    -- Remove the user message on error
    let w2 := updateChat p.closureCurrent p.currentChat.id
      { messages := some p.currentChat.messages } w1
    { w2 with isLoading := false }

/-- The function `handleSendMessage` run from its call to its end, with nothing else
happening while the request is in flight. -/
def handleSendMessage (clk : SendClock) (outcome : FetchOutcome) (rclk : ReplyClock)
    (w : World) : World :=
  match sendStart clk w with
  | (w1, none) => w1
  | (w1, some p) => sendSettle p outcome rclk w1

/-! ## `ChatInterface.jsx`: export and import -/

/-- The function `exportChat`: the new state and the object written to the downloaded
file, if any.  With no session selected or an empty message list nothing is
written; reading `length` of a missing message list throws. -/
def exportChat (w : World) : World × Option ChatData :=
  match w.currentChat with
  | none => ({ w with toasts := w.toasts ++ [Toast.error "No chat to export"] }, none)
  | some chat =>
    match chat.messages with
    | none => (w, none)
    | some [] => ({ w with toasts := w.toasts ++ [Toast.error "No chat to export"] }, none)
    | some (m :: ms) =>
      ({ w with toasts := w.toasts ++ [Toast.success "Chat exported successfully"] },
        some { title := chat.title
               model := chat.model
               createdAt := chat.createdAt
               messages := some (m :: ms) })

/-- The value of `value || fallback` for a string property that may be
missing: the empty string is falsy. -/
def orString (value : Option String) (fallback : String) : String :=
  match value with
  | none => fallback
  | some s => if s = "" then fallback else s

/-- The clock readings of a chat import, in the order in which they are
taken. -/
structure ImportClock where
  /-- Reading of `Date.now()` for `importedChat.id`. -/
  importedId : Nat
  /-- Reading of `new Date()` for `importedChat.createdAt`. -/
  importedCreatedAt : Nat
  /-- Reading of `Date.now()` inside `createNewChat`. -/
  newChatId : Nat
  /-- Reading of `new Date()` inside `createNewChat`. -/
  newChatCreatedAt : Nat
deriving DecidableEq

/-- The function `importChat` together with the `onload` callback of its reader; `file`
is `none` when the event carries no file. -/
def importChat (file : Option ChatFile) (clk : ImportClock) (w : World) : World :=
  match file with
  | none => w
  | some .invalid =>
    { w with toasts := w.toasts ++ [Toast.error "Failed to import chat: Invalid file format"] }
  | some (.parsed chatData) =>
    let importedChat : Chat :=
      { id := some (numberToString clk.importedId)
        title := some (orString chatData.title "Imported Chat")
        messages := some (chatData.messages.getD [])
        createdAt := some (toISOString clk.importedCreatedAt)
        model := some (orString chatData.model "gemini-1.5-flash") }
    let w1 := onNewChat importedChat clk.newChatId clk.newChatCreatedAt w
    { w1 with toasts := w1.toasts ++ [Toast.success "Chat imported successfully"] }

/-! ## `Settings.jsx` -/

/-- The effect of `Settings` that loads the settings from local storage. -/
def loadSettingsEffect (w : World) : World :=
  let savedApiKey := orString (getItem w.storage "gemini-api-key") ""
  let savedFontSize := orString (getItem w.storage "pishoo-font-size") "medium"
  let savedAutoSave := decide (getItem w.storage "pishoo-auto-save" ≠ some "false")
  let savedSoundEnabled := decide (getItem w.storage "pishoo-sound-enabled" = some "true")
  { w with
    apiKey := savedApiKey
    fontSize := .string savedFontSize
    autoSave := savedAutoSave
    soundEnabled := savedSoundEnabled }

/-- The function `saveApiKey` of `Settings.jsx`. -/
def saveApiKey (w : World) : World :=
  if trim w.apiKey ≠ "" then
    { w with
      storage := setItem w.storage "gemini-api-key" (trim w.apiKey)
      toasts := w.toasts ++ [Toast.success "API key saved successfully"] }
  else
    { w with
      storage := removeItem w.storage "gemini-api-key"
      toasts := w.toasts ++ [Toast.success "API key removed"] }

/-- The function `clearApiKey` of `Settings.jsx`. -/
def clearApiKey (w : World) : World :=
  { w with
    apiKey := ""
    storage := removeItem w.storage "gemini-api-key"
    toasts := w.toasts ++ [Toast.success "API key cleared"] }

/-- The function `saveFontSize` of `Settings.jsx`. -/
def saveFontSize (size : JsValue) (w : World) : World :=
  { w with
    fontSize := size
    storage := setItem w.storage "pishoo-font-size" size.toText
    rootFontSize := some
      (if size = .string "small" then "14px" else if size = .string "large" then "18px"
        else "16px")
    toasts := w.toasts ++ [Toast.success "Font size updated"] }

/-- The function `saveAutoSave` of `Settings.jsx`. -/
def saveAutoSave (enabled : Bool) (w : World) : World :=
  { w with
    autoSave := enabled
    storage := setItem w.storage "pishoo-auto-save" (if enabled then "true" else "false")
    toasts := w.toasts ++
      [Toast.success ("Auto-save " ++ (if enabled then "enabled" else "disabled"))] }

/-- The function `saveSoundEnabled` of `Settings.jsx`. -/
def saveSoundEnabled (enabled : Bool) (w : World) : World :=
  { w with
    soundEnabled := enabled
    storage := setItem w.storage "pishoo-sound-enabled" (if enabled then "true" else "false")
    toasts := w.toasts ++
      [Toast.success ("Sound " ++ (if enabled then "enabled" else "disabled"))] }

/-- The function `setTheme` of the theme provider, a library outside this
repository: only the `theme` it keeps is modelled. -/
def setTheme (theme : JsValue) (w : World) : World :=
  { w with theme := theme }

/-- The function `exportSettings` of `Settings.jsx`: the new state and the
object `settings` that is serialised into the downloaded file, as its
properties in the order in which they are written.  `now` is the reading of
`new Date()`. -/
def exportSettings (now : Nat) (w : World) : World × List (String × JsValue) :=
  ({ w with toasts := w.toasts ++ [Toast.success "Settings exported successfully"] },
    [("fontSize", w.fontSize),
     ("autoSave", .bool w.autoSave),
     ("soundEnabled", .bool w.soundEnabled),
     ("theme", w.theme),
     ("exportedAt", .string (toISOString now))])

/-- The properties of an object that `JSON.stringify` writes: a property
that holds `undefined` is left out. -/
def writtenProperties (object : List (String × JsValue)) : List (String × JsValue) :=
  object.filter fun property => property.2 ≠ .undefined

/-- The object that `JSON.parse` returns for a settings file, restricted to
the four properties that `importSettings` reads. -/
structure SettingsData where
  fontSize : JsValue := .undefined
  autoSave : JsValue := .undefined
  soundEnabled : JsValue := .undefined
  theme : JsValue := .undefined
deriving DecidableEq

/-- The text of a file handed to the settings import, as `JSON.parse` sees
it: either it is not JSON, or it parses to an object. -/
inductive SettingsFile where
  | invalid
  | parsed (settings : SettingsData)
deriving DecidableEq

/-- The function `importSettings` together with the `onload` callback of its
reader; `file` is `none` when the event carries no file. -/
def importSettings (file : Option SettingsFile) (w : World) : World :=
  match file with
  | none => w
  | some .invalid =>
    { w with
      toasts := w.toasts ++ [Toast.error "Failed to import settings: Invalid file format"] }
  | some (.parsed settings) =>
    let w1 := if settings.fontSize.truthy then saveFontSize settings.fontSize w else w
    let w2 :=
      match settings.autoSave with
      | .bool enabled => saveAutoSave enabled w1
      | _ => w1
    let w3 :=
      match settings.soundEnabled with
      | .bool enabled => saveSoundEnabled enabled w2
      | _ => w2
    let w4 := if settings.theme.truthy then setTheme settings.theme w3 else w3
    { w4 with toasts := w4.toasts ++ [Toast.success "Settings imported successfully"] }

/-- The function `clearAllData` of `Settings.jsx`; `confirmed` is the answer
to its `confirm` dialog. -/
def clearAllData (confirmed : Bool) (w : World) : World :=
  if confirmed then
    { w with
      storage := []
      apiKey := ""
      fontSize := .string "medium"
      autoSave := true
      soundEnabled := false
      toasts := w.toasts ++ [Toast.success "All data cleared"] }
  else w

/-! ## `Sidebar.jsx` -/

/-- Model of `String(i)` for an integer. -/
def intToString : Int → String
  | .ofNat n => numberToString n
  | .negSucc n => "-" ++ numberToString (n + 1)

/-- The function `formatDate` of `Sidebar.jsx`.  `date` is the time value of
`new Date(dateString)`, `none` when the string is not a date; `now` is the
reading of `new Date()`; `localeDate` is what `date.toLocaleDateString()`
returns.  `Math.ceil` of the quotient is taken on the integers. -/
def formatDate (date : Option Nat) (now : Nat) (localeDate : String) : String :=
  match date with
  | none => localeDate
  | some date =>
    let diffTime := if date ≤ now then now - date else date - now
    let diffDays := (diffTime + (1000 * 60 * 60 * 24 - 1)) / (1000 * 60 * 60 * 24)
    if diffDays = 1 then "Today"
    else if diffDays = 2 then "Yesterday"
    else if diffDays ≤ 7 then intToString ((diffDays : Int) - 1) ++ " days ago"
    else localeDate

/-! ## The running application -/

/-- The application with the sends that are in flight: each suspended
`handleSendMessage` with what it holds. -/
structure Running where
  world : World
  inFlight : List Pending := []

/-- What can happen to the running application while `ChatInterface` stays
mounted.  Sessions are selected and deleted from the rendered list, so these
events name a position in `chats`. -/
inductive Event where
  /-- The user edits the text area: `setMessage(text)`. -/
  | typeMessage (text : String)
  /-- The user picks a model: `setSelectedModel(model)`. -/
  | selectModel (model : String)
  /-- The user sends: `handleSendMessage` is called. -/
  | send (clk : SendClock)
  /-- The `fetch` of the send at position `index` of those in flight ends. -/
  | settle (index : Nat) (outcome : FetchOutcome) (rclk : ReplyClock)
  /-- A new chat: `createNewChat` is called from the sidebar, the welcome screen or the
  command palette. -/
  | newChat (now date : Nat)
  /-- The user clicks the session at position `index` of the sidebar. -/
  | selectChat (index : Nat)
  /-- The user deletes the session at position `index` of the sidebar. -/
  | deleteChat (index : Nat)
  /-- The user picks a file to import, and the reader has loaded it. -/
  | importFile (file : Option ChatFile) (clk : ImportClock)
  /-- The user exports the current session. -/
  | exportChat

/-- The effect of one event.  A handler called by the user was created in
the latest render, so the `currentChat` in its closure is the current one; a
send in flight keeps the closure it was started with. -/
def step (r : Running) : Event → Running
  | .typeMessage text => { r with world := { r.world with message := text } }
  | .selectModel model => { r with world := { r.world with selectedModel := model } }
  | .send clk =>
    match sendStart clk r.world with
    | (w, none) => { r with world := w }
    | (w, some p) => { world := w, inFlight := r.inFlight ++ [p] }
  | .settle index outcome rclk =>
    match r.inFlight.get? index with
    | none => r
    | some p =>
      { world := sendSettle p outcome rclk r.world, inFlight := r.inFlight.eraseIdx index }
  | .newChat now date => { r with world := createNewChat now date r.world }
  | .selectChat index =>
    match r.world.chats.get? index with
    | none => r
    | some chat => { r with world := onChatSelect chat r.world }
  | .deleteChat index =>
    match r.world.chats.get? index with
    | none => r
    | some chat => { r with world := deleteChat r.world.currentChat chat.id r.world }
  | .importFile file clk => { r with world := importChat file clk r.world }
  | .exportChat => { r with world := (exportChat r.world).1 }

/-- The application after a sequence of events. -/
def run (r : Running) (events : List Event) : Running :=
  events.foldl step r

/-- One send from its call to its end: the text typed, the clock readings of
the send, how the `fetch` ends and the clock readings of the reply. -/
structure SendRound where
  text : String
  clk : SendClock
  outcome : FetchOutcome
  rclk : ReplyClock

/-- The user types the text of the round and sends it; the handler runs to
its end. -/
def sendRound (w : World) (r : SendRound) : World :=
  handleSendMessage r.clk r.outcome r.rclk { w with message := r.text }

/-- A sequence of sends, each ended before the next begins. -/
def sendRounds (w : World) (rounds : List SendRound) : World :=
  rounds.foldl sendRound w

/-- The clock readings of a sequence of sends on a selected session, in the
order in which they are taken. -/
def roundReadings : List SendRound → List Nat
  | [] => []
  | r :: rest =>
    r.clk.userMessageId :: r.clk.userMessageTime :: r.rclk.assistantId ::
      r.rclk.assistantTime :: roundReadings rest

/-- A value of the font size selector of `Settings`. -/
inductive FontChoice where
  | small
  | medium
  | large
deriving DecidableEq

/-- The string of a value of the font size selector. -/
def FontChoice.value : FontChoice → String
  | .small => "small"
  | .medium => "medium"
  | .large => "large"

/-- An operation on the settings: a pick in the font size selector, the import
of a settings file, or the clear-all button with the answer to its dialog. -/
inductive SettingsEvent where
  | pickFontSize (choice : FontChoice)
  | importFile (file : Option SettingsFile)
  | clearAll (confirmed : Bool)

/-- The effect of one operation on the settings. -/
def settingsStep (w : World) : SettingsEvent → World
  | .pickFontSize choice => saveFontSize (.string choice.value) w
  | .importFile file => importSettings file w
  | .clearAll confirmed => clearAllData confirmed w

/-- The state after a sequence of operations on the settings. -/
def settingsRun (w : World) (events : List SettingsEvent) : World :=
  events.foldl settingsStep w

/-! ## Example inputs -/

/-- A user message. -/
def exampleQuestion : Message :=
  { id := "1700000000000"
    role := "user"
    content := some "Hello"
    timestamp := "2023-11-14T22:13:20.000Z" }

/-- The reply to `exampleQuestion`. -/
def exampleAnswer : Message :=
  { id := "1700000002001"
    role := "assistant"
    content := some "Hi there"
    timestamp := "2023-11-14T22:13:22.000Z" }

/-- A session with one exchange. -/
def exampleChat : Chat :=
  { id := some "1700000000000"
    title := some "Greetings"
    messages := some [exampleQuestion, exampleAnswer]
    createdAt := some "2023-11-14T22:13:20.000Z"
    model := some "gemini-1.5-pro" }

/-- A state in which `exampleChat` is selected, a credential is stored and a
text has been typed. -/
def exampleWorld : World :=
  { chats := [exampleChat, newChat 1690000000000 1690000000000]
    currentChat := some exampleChat
    message := "  How are you?  "
    selectedModel := "gemini-1.5-pro"
    storage := [("gemini-api-key", "secret")] }

/-- A state with no session, in which a credential is stored and a text has
been typed. -/
def exampleWorldNoChat : World :=
  { message := " Hello "
    storage := [("gemini-api-key", "secret")] }

/-- Clock readings of a send in which the clock ticks between the reading for
the local session object and the reading inside `createNewChat`. -/
def exampleSendClock : SendClock :=
  { userMessageId := 1700000100000
    userMessageTime := 1700000100000
    localChatId := 1700000100000
    localChatCreatedAt := 1700000100000
    newChatId := 1700000100001
    newChatCreatedAt := 1700000100001 }

/-- Clock readings of a reply two seconds after `exampleSendClock`. -/
def exampleReplyClock : ReplyClock :=
  { assistantId := 1700000102000
    assistantTime := 1700000102000 }

/-- Clock readings of an import. -/
def exampleImportClock : ImportClock :=
  { importedId := 1700000200000
    importedCreatedAt := 1700000200000
    newChatId := 1700000200000
    newChatCreatedAt := 1700000200000 }

/-- A success response with the reply `r` as the first part of the first
candidate, followed by other parts and other candidates. -/
def successResponse (status : Nat) (statusText r : String) (otherParts : List Part)
    (otherCandidates : List Candidate) : FetchOutcome :=
  let first : Candidate := { content := some { parts := some ({ text := some r } :: otherParts) } }
  .response true status statusText (.ok { candidates := some (first :: otherCandidates) })

/-- Clock readings of a send in which every reading falls into the same
millisecond. -/
def exampleSendClockSameMs : SendClock :=
  { userMessageId := 1700000100000
    userMessageTime := 1700000100000
    localChatId := 1700000100000
    localChatCreatedAt := 1700000100000
    newChatId := 1700000100000
    newChatCreatedAt := 1700000100000 }

/-- A response with status 200 whose first candidate has one part, and that
part has no `text`: the body `{"candidates":[{"content":{"parts":[{}]}}]}`. -/
def exampleResponseNoText : FetchOutcome :=
  let first : Candidate := { content := some { parts := some [{ text := none }] } }
  .response true 200 "OK" (.ok { candidates := some [first] })

/-- A stand-in for `JSON.parse` on the stored texts of the examples: it
returns the empty list for the text `[]` and rejects the text `not json`, as
`JSON.parse` does. -/
def exampleParse (text : String) : Option (List Chat) :=
  if text = "[]" then some [] else none

/-- A state whose store holds a text under "pishoo-chats" that is not JSON. -/
def exampleWorldBadStore : World :=
  { storage := [("pishoo-chats", "not json")] }

/-- A state right after `createNewChat` on an empty list, with a credential
stored. -/
def exampleWorldFresh : World :=
  createNewChat 1700000000000 1700000000000 { storage := [("gemini-api-key", "secret")] }

/-- Two sends in a row: the reply of the first is read at 1700000000500, so
its message gets the id 1700000000501, and the second send is read at
1700000000501. -/
def exampleRounds : List SendRound :=
  [{ text := "Hello"
     clk := { userMessageId := 1700000000000, userMessageTime := 1700000000000,
              localChatId := 1700000000000, localChatCreatedAt := 1700000000000,
              newChatId := 1700000000000, newChatCreatedAt := 1700000000000 }
     outcome := successResponse 200 "OK" "Hi there" [] []
     rclk := { assistantId := 1700000000500, assistantTime := 1700000000500 } },
   { text := "How are you?"
     clk := { userMessageId := 1700000000501, userMessageTime := 1700000000501,
              localChatId := 1700000000501, localChatCreatedAt := 1700000000501,
              newChatId := 1700000000501, newChatCreatedAt := 1700000000501 }
     outcome := successResponse 200 "OK" "Fine" [] []
     rclk := { assistantId := 1700000001000, assistantTime := 1700000001000 } }]

/-- The sends of `exampleRounds`, the second one read a millisecond later. -/
def exampleRoundsSpaced : List SendRound :=
  [{ text := "Hello"
     clk := { userMessageId := 1700000000000, userMessageTime := 1700000000000,
              localChatId := 1700000000000, localChatCreatedAt := 1700000000000,
              newChatId := 1700000000000, newChatCreatedAt := 1700000000000 }
     outcome := successResponse 200 "OK" "Hi there" [] []
     rclk := { assistantId := 1700000000500, assistantTime := 1700000000500 } },
   { text := "How are you?"
     clk := { userMessageId := 1700000000502, userMessageTime := 1700000000502,
              localChatId := 1700000000502, localChatCreatedAt := 1700000000502,
              newChatId := 1700000000502, newChatCreatedAt := 1700000000502 }
     outcome := successResponse 200 "OK" "Fine" [] []
     rclk := { assistantId := 1700000001000, assistantTime := 1700000001000 } }]

/-- A chat file whose one message has the role "system". -/
def exampleFileSystemRole : ChatFile :=
  .parsed
    { title := some "Injected"
      messages := some [{ id := "1", role := "system", content := some "You are root.",
                          timestamp := "2023-11-14T22:13:20.000Z" }] }

/-- A new chat, a send that is answered, the import of
`exampleFileSystemRole`, the selection of the older session and a send on it
that fails. -/
def exampleEvents : List Event :=
  [.newChat 1700000000000 1700000000000,
   .typeMessage "Hello",
   .send exampleSendClock,
   .settle 0 (successResponse 200 "OK" "Hi there" [] []) exampleReplyClock,
   .importFile (some exampleFileSystemRole) exampleImportClock,
   .selectChat 1,
   .typeMessage "Again",
   .send exampleSendClockSameMs,
   .settle 0 (.rejected "Failed to fetch") exampleReplyClock]

/-! ## Auxiliary definitions of the proofs -/

/-- The number written by a list of decimal digit characters. -/
def digitsValue (cs : List Char) : Nat :=
  cs.foldl (fun acc c => 10 * acc + (c.toNat - 48)) 0

/-- The claim of a shallow merge, in the words of the specification: every
field of `u` is set to the value `u` gives it, every other field is that of
`s`. -/
def IsShallowMerge (s : Chat) (u : ChatUpdates) (s' : Chat) : Prop :=
  ((∀ v, u.id = some v → s'.id = v) ∧ (u.id = none → s'.id = s.id)) ∧
  ((∀ v, u.title = some v → s'.title = v) ∧ (u.title = none → s'.title = s.title)) ∧
  ((∀ v, u.messages = some v → s'.messages = v) ∧
    (u.messages = none → s'.messages = s.messages)) ∧
  ((∀ v, u.createdAt = some v → s'.createdAt = v) ∧
    (u.createdAt = none → s'.createdAt = s.createdAt)) ∧
  ((∀ v, u.model = some v → s'.model = v) ∧ (u.model = none → s'.model = s.model))

/-- The roles of the messages of a list are "user" or "assistant". -/
def ClosedRoles (ms : List Message) : Prop :=
  ∀ m ∈ ms, m.role = "user" ∨ m.role = "assistant"

/-- The messages of a session, if it has any, have the role "user" or
"assistant". -/
def ChatClosedRoles (c : Chat) : Prop :=
  ∀ ms, c.messages = some ms → ClosedRoles ms

/-- The messages that an `updates` object writes, if any, have the role
"user" or "assistant". -/
def UpdatesClosedRoles (u : ChatUpdates) : Prop :=
  ∀ ms, u.messages = some (some ms) → ClosedRoles ms

/-- Every session of the list and the current session have messages with the
role "user" or "assistant" only. -/
def WorldClosedRoles (w : World) : Prop :=
  (∀ s ∈ w.chats, ChatClosedRoles s) ∧ (∀ c, w.currentChat = some c → ChatClosedRoles c)

/-- What a suspended send holds has messages with the role "user" or
"assistant" only. -/
def PendingClosedRoles (p : Pending) : Prop :=
  ChatClosedRoles p.currentChat ∧ ClosedRoles p.updatedMessages

/-- The value is one of the three font sizes of the selector. -/
def InFontEnum (v : JsValue) : Prop :=
  v = .string "small" ∨ v = .string "medium" ∨ v = .string "large"

/-- The event, if it imports a file that parses and whose `fontSize` is
truthy, imports one of the three font sizes. -/
def ImportsFontEnum (e : SettingsEvent) : Prop :=
  ∀ settings, e = .importFile (some (.parsed settings)) →
    settings.fontSize.truthy = true → InFontEnum settings.fontSize

/-! ## Lemmas on the platform functions -/

theorem digitChar_toNat (d : Nat) (h : d < 10) : (digitChar d).toNat = 48 + d := by
  interval_cases d <;> rfl

theorem digitsValue_append_single (cs : List Char) (c : Char) :
    digitsValue (cs ++ [c]) = 10 * digitsValue cs + (c.toNat - 48) := by
  simp [digitsValue, List.foldl_append]

theorem digitsValue_decimalDigits (fuel : Nat) :
    ∀ n, n < fuel → digitsValue (decimalDigits fuel n) = n := by
  induction fuel with
  | zero => intro n h; omega
  | succ fuel ih =>
    intro n h
    unfold decimalDigits
    by_cases hn : n < 10
    · simp [hn, digitsValue, digitChar_toNat n hn]
    · simp only [hn, if_false]
      rw [digitsValue_append_single, ih (n / 10) (by omega),
        digitChar_toNat (n % 10) (Nat.mod_lt _ (by omega))]
      omega

theorem numberToString_injective : Function.Injective numberToString := by
  intro a b h
  have h' : decimalDigits (a + 1) a = decimalDigits (b + 1) b :=
    congrArg String.data h
  have ha := digitsValue_decimalDigits (a + 1) a (by omega)
  have hb := digitsValue_decimalDigits (b + 1) b (by omega)
  rw [h'] at ha
  omega

/-! ## Lemmas on the session list -/

theorem createNewChats_chats (clock : List (Nat × Nat)) :
    ∀ w : World, (createNewChats clock w).chats =
      clock.reverse.map (fun r => newChat r.1 r.2) ++ w.chats := by
  induction clock with
  | nil => intro w; simp [createNewChats]
  | cons r rest ih =>
    intro w
    have h := ih (createNewChat r.1 r.2 w)
    simp only [createNewChats, List.foldl_cons] at h ⊢
    rw [h]
    simp [createNewChat]

theorem updateChat_chats_forall₂ (closureCurrent : Option Chat) (chatId : Option String)
    (u : ChatUpdates) (w : World) :
    List.Forall₂ (fun s s' => s' = if s.id = chatId then s.spread u else s)
      w.chats (updateChat closureCurrent chatId u w).chats := by
  simp only [updateChat]
  induction w.chats with
  | nil => exact List.Forall₂.nil
  | cons s rest ih => exact List.Forall₂.cons rfl ih

theorem spread_isShallowMerge (s : Chat) (u : ChatUpdates) :
    IsShallowMerge s u (s.spread u) := by
  unfold IsShallowMerge Chat.spread
  refine ⟨⟨?_, ?_⟩, ⟨?_, ?_⟩, ⟨?_, ?_⟩, ⟨?_, ?_⟩, ⟨?_, ?_⟩⟩ <;> intros <;> simp_all


/-! ## Lemmas on `handleSendMessage` -/

theorem sendStart_of_rejected (clk : SendClock) (w : World)
    (h : trim w.message = "" ∨ w.isLoading = true) : sendStart clk w = (w, none) := by
  simp [sendStart, h]

theorem sendStart_of_selected (clk : SendClock) (w : World) (c : Chat) (apiKey : String)
    (hsel : w.currentChat = some c) (htext : trim w.message ≠ "") (hidle : w.isLoading = false)
    (hkey : getItem w.storage "gemini-api-key" = some apiKey) (hkey' : apiKey ≠ "") :
    sendStart clk w =
      ({ updateChat (some c) c.id
            { messages := some (some (c.messages.getD [] ++
                [userMessage clk.userMessageId clk.userMessageTime w.message])),
              model := some (some w.selectedModel) } w with
          message := ""
          isLoading := true
          requests := w.requests ++ [completionRequest w.selectedModel apiKey (trim w.message)] },
        some { currentChat := c
               updatedMessages := c.messages.getD [] ++
                [userMessage clk.userMessageId clk.userMessageTime w.message]
               closureCurrent := some c }) := by
  simp [sendStart, htext, hidle, hkey, hkey', hsel, updateChat]

theorem sendSettle_isLoading (p : Pending) (outcome : FetchOutcome) (rclk : ReplyClock)
    (w : World) : (sendSettle p outcome rclk w).isLoading = false := by
  unfold sendSettle
  split <;> rfl

theorem replyText_of_failure (outcome : FetchOutcome)
    (hfail : (∃ message, outcome = .rejected message) ∨
      (∃ status statusText json, outcome = .response false status statusText json)) :
    ∃ message, replyText outcome = .error message := by
  rcases hfail with ⟨message, rfl⟩ | ⟨status, statusText, json, rfl⟩
  · exact ⟨message, rfl⟩
  · exact ⟨"API Error: " ++ numberToString status ++ " - " ++ statusText, by simp [replyText]⟩

theorem sendStart_requests (clk : SendClock) (w : World) (apiKey : String)
    (htext : trim w.message ≠ "") (hidle : w.isLoading = false)
    (hkey : getItem w.storage "gemini-api-key" = some apiKey) (hkey' : apiKey ≠ "") :
    (sendStart clk w).1.requests =
      w.requests ++ [completionRequest w.selectedModel apiKey (trim w.message)] := by
  cases hc : w.currentChat <;>
    simp [sendStart, htext, hidle, hkey, hkey', hc, updateChat, onNewChat, createNewChat]

theorem sendSettle_requests (p : Pending) (outcome : FetchOutcome) (rclk : ReplyClock)
    (w : World) : (sendSettle p outcome rclk w).requests = w.requests := by
  unfold sendSettle
  split <;> rfl

theorem handleSendMessage_requests (clk : SendClock) (outcome : FetchOutcome)
    (rclk : ReplyClock) (w : World) :
    (handleSendMessage clk outcome rclk w).requests = (sendStart clk w).1.requests := by
  unfold handleSendMessage
  rcases hs : sendStart clk w with ⟨w1, p⟩
  cases p with
  | none => rfl
  | some p => exact sendSettle_requests p outcome rclk w1

/-! ## Lemmas on a send run to its end -/

theorem handleSendMessage_of_selected (clk : SendClock) (outcome : FetchOutcome)
    (rclk : ReplyClock) (w : World) (c : Chat) (hsel : w.currentChat = some c)
    (hidle : w.isLoading = false) :
    ((handleSendMessage clk outcome rclk w).currentChat = some c ∧
        (handleSendMessage clk outcome rclk w).chats = w.chats ∧
        (handleSendMessage clk outcome rclk w).isLoading = false) ∨
      ∃ messages : Option (List Message),
        (messages = c.messages ∨ ∃ text, messages = some (c.messages.getD [] ++
          [userMessage clk.userMessageId clk.userMessageTime w.message,
            assistantMessage rclk.assistantId rclk.assistantTime text])) ∧
        (handleSendMessage clk outcome rclk w).currentChat =
          some { c with messages := messages, model := some w.selectedModel } ∧
        (handleSendMessage clk outcome rclk w).chats =
          w.chats.map (fun s =>
            if s.id = c.id then { s with messages := messages, model := some w.selectedModel }
            else s) ∧
        (handleSendMessage clk outcome rclk w).isLoading = false := by
  by_cases h1 : trim w.message = "" ∨ w.isLoading = true
  · left
    simp [handleSendMessage, sendStart_of_rejected clk w h1, hsel, hidle]
  · have htext : trim w.message ≠ "" := fun h => h1 (Or.inl h)
    cases hk : getItem w.storage "gemini-api-key" with
    | none =>
      left
      simp [handleSendMessage, sendStart, htext, hk, hsel, hidle]
    | some apiKey =>
      by_cases h2 : apiKey = ""
      · left
        simp [handleSendMessage, sendStart, htext, hk, h2, hsel, hidle]
      · right
        cases hr : replyText outcome with
        | error message =>
          refine ⟨c.messages, Or.inl rfl, ?_, ?_, ?_⟩
          · simp [handleSendMessage, sendStart_of_selected clk w c apiKey hsel htext hidle hk h2,
              sendSettle, hr, updateChat, spreadOnto, Chat.spread, hsel]
          · simp only [handleSendMessage,
              sendStart_of_selected clk w c apiKey hsel htext hidle hk h2, sendSettle, hr,
              updateChat, List.map_map]
            apply List.map_congr_left
            intro s _
            by_cases h : s.id = c.id <;> simp [h, Chat.spread]
          · simp [handleSendMessage, sendStart_of_selected clk w c apiKey hsel htext hidle hk h2,
              sendSettle, hr]
        | ok text =>
          refine ⟨_, Or.inr ⟨text, rfl⟩, ?_, ?_, ?_⟩
          · simp [handleSendMessage, sendStart_of_selected clk w c apiKey hsel htext hidle hk h2,
              sendSettle, hr, updateChat, spreadOnto, Chat.spread, hsel]
          · simp only [handleSendMessage,
              sendStart_of_selected clk w c apiKey hsel htext hidle hk h2, sendSettle, hr,
              updateChat, List.map_map]
            apply List.map_congr_left
            intro s _
            by_cases h : s.id = c.id <;> simp [h, Chat.spread]
          · simp [handleSendMessage, sendStart_of_selected clk w c apiKey hsel htext hidle hk h2,
              sendSettle, hr]

theorem handleSendMessage_failure_world (clk : SendClock) (outcome : FetchOutcome)
    (rclk : ReplyClock) (w : World) (c : Chat) (apiKey : String)
    (hsel : w.currentChat = some c)
    (htext : trim w.message ≠ "") (hidle : w.isLoading = false)
    (hkey : getItem w.storage "gemini-api-key" = some apiKey) (hkey' : apiKey ≠ "")
    (hfail : (∃ message, outcome = .rejected message) ∨
      (∃ status statusText json, outcome = .response false status statusText json)) :
    (handleSendMessage clk outcome rclk w).currentChat =
        some { c with model := some w.selectedModel } ∧
      (handleSendMessage clk outcome rclk w).chats =
        w.chats.map (fun s =>
          if s.id = c.id then { s with messages := c.messages, model := some w.selectedModel }
          else s) := by
  obtain ⟨message, hreply⟩ := replyText_of_failure outcome hfail
  constructor
  · simp [handleSendMessage, sendStart_of_selected clk w c apiKey hsel htext hidle hkey hkey',
      sendSettle, hreply, updateChat, spreadOnto, Chat.spread, hsel]
  · simp only [handleSendMessage,
      sendStart_of_selected clk w c apiKey hsel htext hidle hkey hkey', sendSettle, hreply,
      updateChat, List.map_map]
    apply List.map_congr_left
    intro s _
    by_cases h : s.id = c.id <;> simp [h, Chat.spread]

theorem sendRounds_message_ids (rounds : List SendRound) :
    ∀ (w : World) (c : Chat) (ms : List Message) (ns : List Nat),
      w.currentChat = some c → c.messages = some ms → w.isLoading = false →
      (∀ s ∈ w.chats, s.id = c.id → s.messages = some ms) →
      ms.map (·.id) = ns.map numberToString → ns.Sorted (· < ·) →
      (∀ r ∈ rounds, r.clk.userMessageId ≤ r.rclk.assistantId) →
      rounds.Chain' (fun r1 r2 => r1.rclk.assistantId + 1 < r2.clk.userMessageId) →
      (∀ n ∈ ns, ∀ r ∈ rounds.head?, n < r.clk.userMessageId) →
      ∃ c' ms', (sendRounds w rounds).currentChat = some c' ∧ c'.id = c.id ∧
        c'.messages = some ms' ∧ (ms'.map (·.id)).Nodup ∧
        ∀ s ∈ (sendRounds w rounds).chats, s.id = c.id → s.messages = some ms' := by
  induction rounds with
  | nil =>
    intro w c ms ns hsel hM _ hlist hids hsorted _ _ _
    refine ⟨c, ms, hsel, rfl, hM, ?_, hlist⟩
    rw [hids]
    exact List.Nodup.map numberToString_injective hsorted.nodup
  | cons r rest ih =>
    intro w c ms ns hsel hM hidle hlist hids hsorted hreply hchain hbound
    have hr := hreply r (List.mem_cons_self _ _)
    have hrest : ∀ r' ∈ rest, r'.clk.userMessageId ≤ r'.rclk.assistantId :=
      fun r' h' => hreply r' (List.mem_cons_of_mem _ h')
    have hlow : ∀ n ∈ ns, n < r.clk.userMessageId := fun n hn => hbound n hn r (by simp)
    have hnext : ∀ r' ∈ rest.head?, r.rclk.assistantId + 1 < r'.clk.userMessageId :=
      fun r' h' => hchain.rel_head? h'
    have hkeep : ∀ n ∈ ns, ∀ r' ∈ rest.head?, n < r'.clk.userMessageId := by
      intro n hn r' h'
      have := hlow n hn
      have := hnext r' h'
      omega
    have hstep : sendRounds w (r :: rest) = sendRounds (sendRound w r) rest := rfl
    rw [hstep]
    rcases handleSendMessage_of_selected r.clk r.outcome r.rclk { w with message := r.text } c
        hsel hidle with ⟨hcur, hchats, hload⟩ | ⟨messages, hmsg, hcur, hchats, hload⟩
    · exact ih (sendRound w r) c ms ns hcur hM hload
        (by intro s hs; rw [show (sendRound w r).chats = w.chats from hchats] at hs
            exact hlist s hs)
        hids hsorted hrest hchain.tail hkeep
    · have hlist' : ∀ s ∈ (sendRound w r).chats,
          s.id = c.id → s.messages = messages := by
        intro s hs hid
        rw [show (sendRound w r).chats = _ from hchats, List.mem_map] at hs
        obtain ⟨s0, _, rfl⟩ := hs
        by_cases h : s0.id = c.id
        · simp [h]
        · rw [if_neg h] at hid; exact absurd hid h
      rcases hmsg with hmsg | ⟨text, hmsg⟩
      · subst hmsg
        exact ih (sendRound w r) { c with model := some w.selectedModel } ms ns hcur hM hload
          (by intro s hs hid; rw [hlist' s hs hid, hM])
          hids hsorted hrest hchain.tail hkeep
      · subst hmsg
        rw [hM] at hcur hlist'
        refine ih (sendRound w r)
          { c with
            messages := some ((some ms).getD [] ++
              [userMessage r.clk.userMessageId r.clk.userMessageTime r.text,
                assistantMessage r.rclk.assistantId r.rclk.assistantTime text])
            model := some w.selectedModel }
          (ms ++ [userMessage r.clk.userMessageId r.clk.userMessageTime r.text,
            assistantMessage r.rclk.assistantId r.rclk.assistantTime text])
          (ns ++ [r.clk.userMessageId, r.rclk.assistantId + 1])
          hcur rfl hload hlist' ?_ ?_ hrest hchain.tail ?_
        · simp [hids, userMessage, assistantMessage]
        · rw [List.Sorted, List.pairwise_append]
          refine ⟨hsorted, by simp; omega, ?_⟩
          intro a ha b hb
          have := hlow a ha
          simp only [List.mem_cons, List.mem_singleton, List.not_mem_nil, or_false] at hb
          rcases hb with rfl | rfl <;> omega
        · intro n hn r' h'
          have := hnext r' h'
          simp only [List.mem_append, List.mem_cons, List.mem_singleton, List.not_mem_nil,
            or_false] at hn
          rcases hn with hn | rfl | rfl
          · have := hlow n hn
            omega
          · omega
          · omega

/-! ## Lemmas on the roles of the messages -/

theorem spread_closedRoles (c : Chat) (u : ChatUpdates) (hc : ChatClosedRoles c)
    (hu : UpdatesClosedRoles u) : ChatClosedRoles (c.spread u) := by
  intro ms hms
  simp only [Chat.spread] at hms
  cases hum : u.messages with
  | none =>
    rw [hum] at hms
    exact hc ms hms
  | some v =>
    rw [hum] at hms
    simp only [Option.getD] at hms
    subst hms
    exact hu ms hum

theorem worldClosedRoles_congr {w w' : World} (hw : WorldClosedRoles w)
    (hchats : w'.chats = w.chats) (hcur : w'.currentChat = w.currentChat) :
    WorldClosedRoles w' := by
  unfold WorldClosedRoles
  rw [hchats, hcur]
  exact hw

theorem updateChat_closedRoles (closureCurrent : Option Chat) (chatId : Option String)
    (u : ChatUpdates) (w : World) (hw : WorldClosedRoles w) (hu : UpdatesClosedRoles u) :
    WorldClosedRoles (updateChat closureCurrent chatId u w) := by
  constructor
  · intro s hs
    simp only [updateChat, List.mem_map] at hs
    obtain ⟨s0, hs0, rfl⟩ := hs
    by_cases h : s0.id = chatId
    · rw [if_pos h]; exact spread_closedRoles s0 u (hw.1 s0 hs0) hu
    · rw [if_neg h]; exact hw.1 s0 hs0
  · intro c hc
    simp only [updateChat] at hc
    by_cases h : closureCurrent.bind (·.id) = chatId
    · rw [if_pos h] at hc
      cases hc
      refine spread_closedRoles _ u ?_ hu
      cases hcur : w.currentChat with
      | none => intro ms hms; simp at hms
      | some c0 => exact hw.2 c0 hcur
    · rw [if_neg h] at hc
      exact hw.2 c hc

theorem createNewChat_closedRoles (now date : Nat) (w : World) (hw : WorldClosedRoles w) :
    WorldClosedRoles (createNewChat now date w) := by
  have hnew : ChatClosedRoles (newChat now date) := by
    intro ms hms
    simp only [newChat, Option.some.injEq] at hms
    subst hms
    intro m hm
    simp at hm
  constructor
  · intro s hs
    simp only [createNewChat, List.mem_cons] at hs
    rcases hs with rfl | hs
    · exact hnew
    · exact hw.1 s hs
  · intro c hc
    simp only [createNewChat, Option.some.injEq] at hc
    subst hc
    exact hnew

theorem closedRoles_append_userMessage (ms : List Message) (now date : Nat) (message : String)
    (h : ClosedRoles ms) : ClosedRoles (ms ++ [userMessage now date message]) := by
  intro m hm
  simp only [List.mem_append, List.mem_singleton] at hm
  rcases hm with hm | rfl
  · exact h m hm
  · exact Or.inl rfl

theorem closedRoles_append_assistantMessage (ms : List Message) (now date : Nat)
    (text : Option String) (h : ClosedRoles ms) :
    ClosedRoles (ms ++ [assistantMessage now date text]) := by
  intro m hm
  simp only [List.mem_append, List.mem_singleton] at hm
  rcases hm with hm | rfl
  · exact h m hm
  · exact Or.inr rfl

theorem closedRoles_getD (c : Chat) (h : ChatClosedRoles c) :
    ClosedRoles (c.messages.getD []) := by
  cases hm : c.messages with
  | none => intro m hmem; simp at hmem
  | some ms => exact h ms hm

theorem sendStart_of_unselected (clk : SendClock) (w : World) (apiKey : String)
    (hsel : w.currentChat = none) (htext : trim w.message ≠ "") (hidle : w.isLoading = false)
    (hkey : getItem w.storage "gemini-api-key" = some apiKey) (hkey' : apiKey ≠ "") :
    sendStart clk w =
      ({ updateChat none (some (numberToString clk.localChatId))
            { messages := some (some
                [userMessage clk.userMessageId clk.userMessageTime w.message]),
              model := some (some w.selectedModel) }
            (createNewChat clk.newChatId clk.newChatCreatedAt w) with
          message := ""
          isLoading := true
          requests := w.requests ++ [completionRequest w.selectedModel apiKey (trim w.message)] },
        some { currentChat :=
                { id := some (numberToString clk.localChatId)
                  title := some (substring0 (trim w.message) 50 ++
                    (if jsLength (trim w.message) > 50 then "..." else ""))
                  messages := some []
                  createdAt := some (toISOString clk.localChatCreatedAt)
                  model := some w.selectedModel }
               updatedMessages := [userMessage clk.userMessageId clk.userMessageTime w.message]
               closureCurrent := none }) := by
  simp [sendStart, htext, hidle, hkey, hkey', hsel, updateChat, onNewChat, createNewChat]

theorem sendStart_closedRoles (clk : SendClock) (w : World) (hw : WorldClosedRoles w) :
    WorldClosedRoles (sendStart clk w).1 ∧
      ∀ p, (sendStart clk w).2 = some p → PendingClosedRoles p := by
  by_cases h1 : trim w.message = "" ∨ w.isLoading = true
  · rw [sendStart_of_rejected clk w h1]
    exact ⟨hw, fun p hp => by simp at hp⟩
  · have htext : trim w.message ≠ "" := fun h => h1 (Or.inl h)
    have hidle : w.isLoading = false := by
      cases hl : w.isLoading with
      | false => rfl
      | true => exact absurd (Or.inr hl) h1
    cases hk : getItem w.storage "gemini-api-key" with
    | none =>
      have hs : sendStart clk w = ({ w with toasts := w.toasts ++
          [Toast.error "Please set your Gemini API key in Settings"] }, none) := by
        simp [sendStart, htext, hidle, hk]
      rw [hs]
      exact ⟨hw, fun p hp => by simp at hp⟩
    | some apiKey =>
      by_cases h2 : apiKey = ""
      · have hs : sendStart clk w = ({ w with toasts := w.toasts ++
            [Toast.error "Please set your Gemini API key in Settings"] }, none) := by
          simp [sendStart, htext, hidle, hk, h2]
        rw [hs]
        exact ⟨hw, fun p hp => by simp at hp⟩
      · cases hc : w.currentChat with
        | none =>
          have hlocal : ClosedRoles
              [userMessage clk.userMessageId clk.userMessageTime w.message] :=
            closedRoles_append_userMessage [] _ _ _ (fun m hm => by simp at hm)
          rw [sendStart_of_unselected clk w apiKey hc htext hidle hk h2]
          have hu := updateChat_closedRoles none (some (numberToString clk.localChatId))
            { messages := some (some
                [userMessage clk.userMessageId clk.userMessageTime w.message]),
              model := some (some w.selectedModel) }
            (createNewChat clk.newChatId clk.newChatCreatedAt w)
            (createNewChat_closedRoles clk.newChatId clk.newChatCreatedAt w hw)
            (by
              intro ms hms
              simp only [Option.some.injEq] at hms
              subst hms
              exact hlocal)
          refine ⟨worldClosedRoles_congr hu rfl rfl, ?_⟩
          · intro p hp
            simp only [Option.some.injEq] at hp
            subst hp
            refine ⟨?_, hlocal⟩
            intro ms hms
            simp only [Option.some.injEq] at hms
            subst hms
            intro m hm
            simp at hm
        | some chat =>
          have hchat := hw.2 chat hc
          have hlocal : ClosedRoles (chat.messages.getD [] ++
              [userMessage clk.userMessageId clk.userMessageTime w.message]) :=
            closedRoles_append_userMessage _ _ _ _ (closedRoles_getD chat hchat)
          rw [sendStart_of_selected clk w chat apiKey hc htext hidle hk h2]
          have hu := updateChat_closedRoles (some chat) chat.id
            { messages := some (some (chat.messages.getD [] ++
                [userMessage clk.userMessageId clk.userMessageTime w.message])),
              model := some (some w.selectedModel) } w hw
            (by
              intro ms hms
              simp only [Option.some.injEq] at hms
              subst hms
              exact hlocal)
          refine ⟨worldClosedRoles_congr hu rfl rfl, ?_⟩
          · intro p hp
            simp only [Option.some.injEq] at hp
            subst hp
            exact ⟨hchat, hlocal⟩

theorem sendSettle_closedRoles (p : Pending) (outcome : FetchOutcome) (rclk : ReplyClock)
    (w : World) (hw : WorldClosedRoles w) (hp : PendingClosedRoles p) :
    WorldClosedRoles (sendSettle p outcome rclk w) := by
  unfold sendSettle
  cases replyText outcome with
  | ok text =>
    have hu := updateChat_closedRoles p.closureCurrent p.currentChat.id
      { messages := some (some (p.updatedMessages ++
          [assistantMessage rclk.assistantId rclk.assistantTime text])) } w hw
      (by
        intro ms hms
        simp only [Option.some.injEq] at hms
        subst hms
        exact closedRoles_append_assistantMessage _ _ _ _ hp.2)
    exact worldClosedRoles_congr hu rfl rfl
  | error message =>
    have hu := updateChat_closedRoles p.closureCurrent p.currentChat.id
      { messages := some p.currentChat.messages }
      { w with toasts := w.toasts ++ [Toast.error ("Failed to send message: " ++ message)] }
      hw
      (by
        intro ms hms
        simp only [Option.some.injEq] at hms
        exact hp.1 ms hms)
    exact worldClosedRoles_congr hu rfl rfl

theorem step_closedRoles (r : Running) (e : Event)
    (h : WorldClosedRoles r.world ∧ ∀ p ∈ r.inFlight, PendingClosedRoles p) :
    WorldClosedRoles (step r e).world ∧ ∀ p ∈ (step r e).inFlight, PendingClosedRoles p := by
  obtain ⟨hw, hp⟩ := h
  cases e with
  | typeMessage text => exact ⟨hw, hp⟩
  | selectModel model => exact ⟨hw, hp⟩
  | send clk =>
    have hs := sendStart_closedRoles clk r.world hw
    simp only [step]
    rcases hstart : sendStart clk r.world with ⟨w', p'⟩
    rw [hstart] at hs
    cases p' with
    | none => exact ⟨hs.1, hp⟩
    | some p' =>
      refine ⟨hs.1, ?_⟩
      intro q hq
      simp only [List.mem_append, List.mem_singleton] at hq
      rcases hq with hq | rfl
      · exact hp q hq
      · exact hs.2 q rfl
  | settle index outcome rclk =>
    simp only [step]
    cases hg : r.inFlight.get? index with
    | none => exact ⟨hw, hp⟩
    | some p' =>
      refine ⟨sendSettle_closedRoles p' outcome rclk r.world hw (hp p' (List.get?_mem hg)), ?_⟩
      intro q hq
      exact hp q (List.mem_of_mem_eraseIdx hq)
  | newChat now date => exact ⟨createNewChat_closedRoles now date r.world hw, hp⟩
  | selectChat index =>
    simp only [step]
    cases hg : r.world.chats.get? index with
    | none => exact ⟨hw, hp⟩
    | some chat =>
      refine ⟨⟨hw.1, ?_⟩, hp⟩
      intro c hc
      simp only [onChatSelect, Option.some.injEq] at hc
      subst hc
      exact hw.1 _ (List.get?_mem hg)
  | deleteChat index =>
    simp only [step]
    cases hg : r.world.chats.get? index with
    | none => exact ⟨hw, hp⟩
    | some chat =>
      refine ⟨⟨?_, ?_⟩, hp⟩
      · intro s hs
        simp only [deleteChat] at hs
        exact hw.1 s (List.mem_of_mem_filter hs)
      · intro c hc
        simp only [deleteChat] at hc
        by_cases hid : r.world.currentChat.bind (·.id) = chat.id
        · rw [if_pos hid] at hc; simp at hc
        · rw [if_neg hid] at hc; exact hw.2 c hc
  | importFile file clk =>
    simp only [step]
    refine ⟨?_, hp⟩
    unfold importChat
    split
    · exact hw
    · exact hw
    · exact createNewChat_closedRoles _ _ r.world hw
  | exportChat =>
    simp only [step]
    refine ⟨?_, hp⟩
    unfold exportChat
    split
    · exact hw
    · split <;> exact hw

theorem run_closedRoles (events : List Event) :
    ∀ r : Running, (WorldClosedRoles r.world ∧ ∀ p ∈ r.inFlight, PendingClosedRoles p) →
      WorldClosedRoles (run r events).world ∧
        ∀ p ∈ (run r events).inFlight, PendingClosedRoles p := by
  induction events with
  | nil => intro r h; exact h
  | cons e rest ih => intro r h; exact ih (step r e) (step_closedRoles r e h)

/-! ## Lemmas on local storage -/

theorem getItem_setItem (storage : Storage) (key value : String) :
    getItem (setItem storage key value) key = some value := by
  simp [getItem, setItem, List.lookup]

theorem saveChatsEffect_stored (stringify : List Chat → String) (w : World) :
    getItem (saveChatsEffect stringify w).storage "pishoo-chats" = some (stringify w.chats) ∧
      (saveChatsEffect stringify w).chats = w.chats :=
  ⟨getItem_setItem w.storage "pishoo-chats" (stringify w.chats), rfl⟩

theorem lookup_filter_ne (storage : Storage) (key other : String) (h : key ≠ other) :
    (storage.filter fun entry => entry.1 ≠ key).lookup other = storage.lookup other := by
  induction storage with
  | nil => rfl
  | cons entry rest ih =>
    obtain ⟨k, v⟩ := entry
    by_cases hk : k = key
    · subst hk
      have hne : (other == k) = false := by simpa using fun h' => h h'.symm
      simpa [List.filter, List.lookup, hne] using ih
    · by_cases ho : other = k
      · subst ho
        simp [List.filter, hk, List.lookup]
      · have hne : (other == k) = false := by simpa using ho
        simpa [List.filter, hk, List.lookup, hne] using ih

theorem getItem_setItem_ne (storage : Storage) (key value other : String) (h : key ≠ other) :
    getItem (setItem storage key value) other = getItem storage other := by
  have hne : (other == key) = false := by simpa using fun h' => h h'.symm
  simp only [getItem, setItem, removeItem, List.lookup, hne]
  exact lookup_filter_ne storage key other h

/-! ## Lemmas on the settings -/

theorem importSettings_parsed (settings : SettingsData) (w : World) :
    (importSettings (some (.parsed settings)) w).fontSize =
        (if settings.fontSize.truthy = true then settings.fontSize else w.fontSize) ∧
      getItem (importSettings (some (.parsed settings)) w).storage "pishoo-font-size" =
        (if settings.fontSize.truthy = true then some settings.fontSize.toText
          else getItem w.storage "pishoo-font-size") ∧
      (importSettings (some (.parsed settings)) w).autoSave =
        (match settings.autoSave with
          | .bool enabled => enabled
          | _ => w.autoSave) ∧
      getItem (importSettings (some (.parsed settings)) w).storage "pishoo-auto-save" =
        (match settings.autoSave with
          | .bool enabled => some (if enabled then "true" else "false")
          | _ => getItem w.storage "pishoo-auto-save") ∧
      (importSettings (some (.parsed settings)) w).soundEnabled =
        (match settings.soundEnabled with
          | .bool enabled => enabled
          | _ => w.soundEnabled) ∧
      getItem (importSettings (some (.parsed settings)) w).storage "pishoo-sound-enabled" =
        (match settings.soundEnabled with
          | .bool enabled => some (if enabled then "true" else "false")
          | _ => getItem w.storage "pishoo-sound-enabled") ∧
      (importSettings (some (.parsed settings)) w).apiKey = w.apiKey ∧
      getItem (importSettings (some (.parsed settings)) w).storage "gemini-api-key" =
        getItem w.storage "gemini-api-key" := by
  have h1 : ∀ (s : Storage) (v : String),
      getItem (setItem s "pishoo-font-size" v) "pishoo-auto-save" =
        getItem s "pishoo-auto-save" :=
    fun s v => getItem_setItem_ne s _ v _ (by decide)
  have h2 : ∀ (s : Storage) (v : String),
      getItem (setItem s "pishoo-font-size" v) "pishoo-sound-enabled" =
        getItem s "pishoo-sound-enabled" :=
    fun s v => getItem_setItem_ne s _ v _ (by decide)
  have h3 : ∀ (s : Storage) (v : String),
      getItem (setItem s "pishoo-font-size" v) "gemini-api-key" = getItem s "gemini-api-key" :=
    fun s v => getItem_setItem_ne s _ v _ (by decide)
  have h4 : ∀ (s : Storage) (v : String),
      getItem (setItem s "pishoo-auto-save" v) "pishoo-font-size" =
        getItem s "pishoo-font-size" :=
    fun s v => getItem_setItem_ne s _ v _ (by decide)
  have h5 : ∀ (s : Storage) (v : String),
      getItem (setItem s "pishoo-auto-save" v) "pishoo-sound-enabled" =
        getItem s "pishoo-sound-enabled" :=
    fun s v => getItem_setItem_ne s _ v _ (by decide)
  have h6 : ∀ (s : Storage) (v : String),
      getItem (setItem s "pishoo-auto-save" v) "gemini-api-key" = getItem s "gemini-api-key" :=
    fun s v => getItem_setItem_ne s _ v _ (by decide)
  have h7 : ∀ (s : Storage) (v : String),
      getItem (setItem s "pishoo-sound-enabled" v) "pishoo-font-size" =
        getItem s "pishoo-font-size" :=
    fun s v => getItem_setItem_ne s _ v _ (by decide)
  have h8 : ∀ (s : Storage) (v : String),
      getItem (setItem s "pishoo-sound-enabled" v) "pishoo-auto-save" =
        getItem s "pishoo-auto-save" :=
    fun s v => getItem_setItem_ne s _ v _ (by decide)
  have h9 : ∀ (s : Storage) (v : String),
      getItem (setItem s "pishoo-sound-enabled" v) "gemini-api-key" =
        getItem s "gemini-api-key" :=
    fun s v => getItem_setItem_ne s _ v _ (by decide)
  have hs : ∀ (s : Storage) (k v : String), getItem (setItem s k v) k = some v :=
    getItem_setItem
  cases hf : settings.fontSize.truthy <;> cases ha : settings.autoSave <;>
    cases hsd : settings.soundEnabled <;> cases ht : settings.theme.truthy <;>
    simp [importSettings, saveFontSize, saveAutoSave, saveSoundEnabled, setTheme, hf, ha, hsd,
      ht, h1, h2, h3, h4, h5, h6, h7, h8, h9, hs]

theorem settingsStep_font_size (w : World) (e : SettingsEvent) (he : ImportsFontEnum e)
    (h : InFontEnum w.fontSize ∧
      (getItem w.storage "pishoo-font-size" = none ∨
        ∃ v, getItem w.storage "pishoo-font-size" = some v ∧ InFontEnum (.string v))) :
    InFontEnum (settingsStep w e).fontSize ∧
      (getItem (settingsStep w e).storage "pishoo-font-size" = none ∨
        ∃ v, getItem (settingsStep w e).storage "pishoo-font-size" = some v ∧
          InFontEnum (.string v)) := by
  cases e with
  | pickFontSize choice =>
    have hc : InFontEnum (.string choice.value) := by
      cases choice <;> simp [InFontEnum, FontChoice.value]
    refine ⟨hc, Or.inr ⟨choice.value, ?_, hc⟩⟩
    exact getItem_setItem w.storage "pishoo-font-size" choice.value
  | importFile file =>
    cases file with
    | none => exact h
    | some f =>
      cases f with
      | invalid => exact h
      | parsed settings =>
        obtain ⟨hmem, hstore, -⟩ := importSettings_parsed settings w
        simp only [settingsStep]
        rw [hmem, hstore]
        cases ht : settings.fontSize.truthy with
        | false => simpa using h
        | true =>
          have hin := he settings rfl ht
          simp only [if_true]
          refine ⟨hin, Or.inr ⟨settings.fontSize.toText, rfl, ?_⟩⟩
          rcases hin with hv | hv | hv <;> rw [hv] <;> simp [JsValue.toText, InFontEnum]
  | clearAll confirmed =>
    cases confirmed with
    | false => exact h
    | true => exact ⟨Or.inr (Or.inl rfl), Or.inl rfl⟩

theorem settingsRun_font_size (events : List SettingsEvent) :
    ∀ w : World, (∀ e ∈ events, ImportsFontEnum e) →
      (InFontEnum w.fontSize ∧
        (getItem w.storage "pishoo-font-size" = none ∨
          ∃ v, getItem w.storage "pishoo-font-size" = some v ∧ InFontEnum (.string v))) →
      InFontEnum (settingsRun w events).fontSize ∧
        (getItem (settingsRun w events).storage "pishoo-font-size" = none ∨
          ∃ v, getItem (settingsRun w events).storage "pishoo-font-size" = some v ∧
            InFontEnum (.string v)) := by
  induction events with
  | nil => intro w _ h; exact h
  | cons e rest ih =>
    intro w he h
    exact ih (settingsStep w e) (fun e' h' => he e' (List.mem_cons_of_mem _ h'))
      (settingsStep_font_size w e (he e (List.mem_cons_self _ _)) h)

/-! ## Lemmas on the operations of `App` -/

theorem formatDate_today (date now : Nat) (localeDate : String) (hlt : date < now)
    (hle : now - date ≤ 1000 * 60 * 60 * 24) : formatDate (some date) now localeDate = "Today" := by
  have h1 : date ≤ now := by omega
  have h2 : (now - date + (1000 * 60 * 60 * 24 - 1)) / (1000 * 60 * 60 * 24) = 1 := by omega
  simp only [formatDate, h1, if_true, h2]

/-! ## The claims -/

/-- C1 at a session with two messages: the file that `exportChat` writes
holds the title, the model and the messages, but `importChat` of that file
puts a session titled "New Chat" with no messages and the default model at
the head of the list, since `createNewChat` drops the object it is handed. -/
theorem importChat_of_exportChat_drops_session :
    (exportChat exampleWorld).2 =
        some { title := some "Greetings"
               model := some "gemini-1.5-pro"
               createdAt := some "2023-11-14T22:13:20.000Z"
               messages := some [exampleQuestion, exampleAnswer] } ∧
      (importChat ((exportChat exampleWorld).2.map ChatFile.parsed) exampleImportClock
          (exportChat exampleWorld).1).chats =
        { id := some "1700000200000"
          title := some "New Chat"
          messages := some []
          createdAt := some "2023-11-14T22:16:40.000Z"
          model := some "gemini-1.5-flash" } :: exampleWorld.chats := by
  decide

/-- C3: for a selected session with message list `M`, when the completion
call fails (the `fetch` rejects, or the response is not ok), then after
`handleSendMessage` every session of the list with the id of the selected one
has the message list `M`, and so has the current session: the user message is
retracted and nothing is left in its place.  The list keeps its sessions in
their order; the selected session, if it is in the list, is there with its
messages `M` (and with the selected model). -/
theorem handleSendMessage_failure_restores_messages (clk : SendClock) (outcome : FetchOutcome)
    (rclk : ReplyClock) (w : World) (c : Chat) (M : List Message) (apiKey : String)
    (hsel : w.currentChat = some c) (hM : c.messages = some M)
    (htext : trim w.message ≠ "") (hidle : w.isLoading = false)
    (hkey : getItem w.storage "gemini-api-key" = some apiKey) (hkey' : apiKey ≠ "")
    (hfail : (∃ message, outcome = .rejected message) ∨
      (∃ status statusText json, outcome = .response false status statusText json)) :
    (∀ s ∈ (handleSendMessage clk outcome rclk w).chats, s.id = c.id → s.messages = some M) ∧
      (handleSendMessage clk outcome rclk w).currentChat =
        some { c with messages := some M, model := some w.selectedModel } ∧
      (handleSendMessage clk outcome rclk w).chats =
        w.chats.map (fun s =>
          if s.id = c.id then { s with messages := some M, model := some w.selectedModel }
          else s) ∧
      (handleSendMessage clk outcome rclk w).chats.map (·.id) = w.chats.map (·.id) ∧
      (c ∈ w.chats →
        { c with model := some w.selectedModel } ∈
          (handleSendMessage clk outcome rclk w).chats) := by
  obtain ⟨message, hreply⟩ := replyText_of_failure outcome hfail
  have hchats : (handleSendMessage clk outcome rclk w).chats =
      w.chats.map (fun s =>
        if s.id = c.id then { s with messages := some M, model := some w.selectedModel }
        else s) := by
    simp only [handleSendMessage, sendStart_of_selected clk w c apiKey hsel htext hidle hkey hkey',
      sendSettle, hreply, updateChat, List.map_map]
    apply List.map_congr_left
    intro s _
    by_cases h : s.id = c.id <;> simp [h, Chat.spread, hM]
  refine ⟨?_, ?_, hchats, ?_, ?_⟩
  · intro s hs hid
    rw [hchats, List.mem_map] at hs
    obtain ⟨s0, _, rfl⟩ := hs
    by_cases h : s0.id = c.id
    · simp [h]
    · rw [if_neg h] at hid; exact absurd hid h
  · simp [handleSendMessage, sendStart_of_selected clk w c apiKey hsel htext hidle hkey hkey',
      sendSettle, hreply, updateChat, spreadOnto, Chat.spread, hsel, hM]
  · rw [hchats, List.map_map]
    apply List.map_congr_left
    intro s _
    by_cases h : s.id = c.id <;> simp [h]
  · intro hc
    rw [hchats, List.mem_map]
    refine ⟨c, hc, ?_⟩
    simp [hM]

/-- Witness of `handleSendMessage_failure_restores_messages`: the `fetch` of
a send on `exampleChat` rejects, and the session is left with its two
messages. -/
theorem handleSendMessage_failure_restores_messages_witness :
    (handleSendMessage exampleSendClock (.rejected "Failed to fetch") exampleReplyClock
        exampleWorld).currentChat =
      some { exampleChat with
        messages := some [exampleQuestion, exampleAnswer], model := some "gemini-1.5-pro" } :=
  (handleSendMessage_failure_restores_messages exampleSendClock (.rejected "Failed to fetch")
    exampleReplyClock exampleWorld exampleChat [exampleQuestion, exampleAnswer] "secret"
    rfl rfl (by decide) rfl rfl (by decide) (Or.inl ⟨"Failed to fetch", rfl⟩)).2.1

/-- C4: for a selected session with message list `M`, a text whose trimmed
form is not empty and a success response whose first candidate has `r` as the
text of its first part, after `handleSendMessage` the message list of the
session (of every session of the list with the selected id, and of the current
session) is `M` followed by the user message with the trimmed text and then
the assistant message with content `r`; the other candidates and the other
parts play no role. -/
theorem handleSendMessage_success_appends_exchange (clk : SendClock) (rclk : ReplyClock)
    (w : World) (c : Chat) (M : List Message) (apiKey : String)
    (status : Nat) (statusText r : String) (otherParts : List Part)
    (otherCandidates : List Candidate)
    (hsel : w.currentChat = some c) (hM : c.messages = some M)
    (htext : trim w.message ≠ "") (hidle : w.isLoading = false)
    (hkey : getItem w.storage "gemini-api-key" = some apiKey) (hkey' : apiKey ≠ "") :
    (∀ s ∈ (handleSendMessage clk (successResponse status statusText r otherParts otherCandidates)
          rclk w).chats, s.id = c.id →
        s.messages = some (M ++
          [{ id := numberToString clk.userMessageId, role := "user",
             content := some (trim w.message), timestamp := toISOString clk.userMessageTime },
           { id := numberToString (rclk.assistantId + 1), role := "assistant",
             content := some r, timestamp := toISOString rclk.assistantTime }])) ∧
      (handleSendMessage clk (successResponse status statusText r otherParts otherCandidates)
          rclk w).currentChat =
        some { c with
          messages := some (M ++ [userMessage clk.userMessageId clk.userMessageTime w.message,
            assistantMessage rclk.assistantId rclk.assistantTime (some r)])
          model := some w.selectedModel } ∧
      (handleSendMessage clk (successResponse status statusText r otherParts otherCandidates)
          rclk w).chats =
        w.chats.map (fun s =>
          if s.id = c.id then
            { s with
              messages := some (M ++ [userMessage clk.userMessageId clk.userMessageTime w.message,
                assistantMessage rclk.assistantId rclk.assistantTime (some r)])
              model := some w.selectedModel }
          else s) ∧
      (c ∈ w.chats →
        { c with
          messages := some (M ++ [userMessage clk.userMessageId clk.userMessageTime w.message,
            assistantMessage rclk.assistantId rclk.assistantTime (some r)])
          model := some w.selectedModel } ∈
          (handleSendMessage clk (successResponse status statusText r otherParts otherCandidates)
            rclk w).chats) := by
  have hreply : replyText (successResponse status statusText r otherParts otherCandidates) =
      .ok (some r) := by
    simp [successResponse, replyText]
  have hchats : (handleSendMessage clk
      (successResponse status statusText r otherParts otherCandidates) rclk w).chats =
      w.chats.map (fun s =>
        if s.id = c.id then
          { s with
            messages := some (M ++ [userMessage clk.userMessageId clk.userMessageTime w.message,
              assistantMessage rclk.assistantId rclk.assistantTime (some r)])
            model := some w.selectedModel }
        else s) := by
    simp only [handleSendMessage, sendStart_of_selected clk w c apiKey hsel htext hidle hkey hkey',
      sendSettle, hreply, updateChat, List.map_map]
    apply List.map_congr_left
    intro s _
    by_cases h : s.id = c.id <;> simp [h, Chat.spread, hM]
  refine ⟨?_, ?_, hchats, ?_⟩
  · intro s hs hid
    rw [hchats, List.mem_map] at hs
    obtain ⟨s0, _, rfl⟩ := hs
    by_cases h : s0.id = c.id
    · simp [h, userMessage, assistantMessage]
    · rw [if_neg h] at hid; exact absurd hid h
  · simp [handleSendMessage, sendStart_of_selected clk w c apiKey hsel htext hidle hkey hkey',
      sendSettle, hreply, updateChat, spreadOnto, Chat.spread, hsel, hM]
  · intro hc
    rw [hchats, List.mem_map]
    exact ⟨c, hc, by simp⟩

/-- Witness of `handleSendMessage_success_appends_exchange`: a send on
`exampleChat` that is answered with "Fine", among other parts and
candidates. -/
theorem handleSendMessage_success_appends_exchange_witness :
    (handleSendMessage exampleSendClock
        (successResponse 200 "OK" "Fine" [{ text := some "ignored" }] [{ content := none }])
        exampleReplyClock exampleWorld).currentChat =
      some { exampleChat with
        messages := some [exampleQuestion, exampleAnswer,
          { id := "1700000100000", role := "user", content := some "How are you?",
            timestamp := "2023-11-14T22:15:00.000Z" },
          { id := "1700000102001", role := "assistant", content := some "Fine",
            timestamp := "2023-11-14T22:15:02.000Z" }]
        model := some "gemini-1.5-pro" } :=
  (handleSendMessage_success_appends_exchange exampleSendClock exampleReplyClock exampleWorld
    exampleChat [exampleQuestion, exampleAnswer] "secret" 200 "OK" "Fine"
    [{ text := some "ignored" }] [{ content := none }]
    rfl rfl (by decide) rfl rfl (by decide)).2.1

/-- C5: when no credential is stored under "gemini-api-key" (the key is
absent or holds the empty string), `handleSendMessage` makes no request and
leaves the session list, the current session, the input text and the
in-flight flag as they are, for every text. -/
theorem handleSendMessage_without_credential (clk : SendClock) (outcome : FetchOutcome)
    (rclk : ReplyClock) (w : World)
    (hkey : getItem w.storage "gemini-api-key" = none ∨
      getItem w.storage "gemini-api-key" = some "") :
    (sendStart clk w).2 = none ∧
      (handleSendMessage clk outcome rclk w).requests = w.requests ∧
      (handleSendMessage clk outcome rclk w).chats = w.chats ∧
      (handleSendMessage clk outcome rclk w).currentChat = w.currentChat ∧
      (handleSendMessage clk outcome rclk w).message = w.message ∧
      (handleSendMessage clk outcome rclk w).isLoading = w.isLoading := by
  by_cases h1 : trim w.message = "" ∨ w.isLoading = true
  · simp [handleSendMessage, sendStart_of_rejected clk w h1]
  · rcases hkey with hkey | hkey <;> simp [handleSendMessage, sendStart, h1, hkey]

/-- Witness of `handleSendMessage_without_credential`: a send with a text and
an empty store. -/
theorem handleSendMessage_without_credential_witness :
    (sendStart exampleSendClock { exampleWorld with storage := [] }).2 = none ∧
      (handleSendMessage exampleSendClock (.rejected "Failed to fetch") exampleReplyClock
        { exampleWorld with storage := [] }).requests = [] :=
  ⟨(handleSendMessage_without_credential exampleSendClock (.rejected "Failed to fetch")
      exampleReplyClock { exampleWorld with storage := [] } (Or.inl rfl)).1,
    (handleSendMessage_without_credential exampleSendClock (.rejected "Failed to fetch")
      exampleReplyClock { exampleWorld with storage := [] } (Or.inl rfl)).2.1⟩

/-- C7: `createNewChat` on a session list `L` yields the list that consists
of a new session `n` followed by `L`; `n` has the title "New Chat", no
messages and the model "gemini-1.5-flash", the sessions of `L` are unchanged
and keep their order, and `n` becomes the current session. -/
theorem createNewChat_prepends_new_session (now date : Nat) (w : World) :
    ∃ n : Chat, (createNewChat now date w).chats = n :: w.chats ∧
      n.title = some "New Chat" ∧ n.messages = some [] ∧
      n.model = some "gemini-1.5-flash" ∧
      (createNewChat now date w).currentChat = some n :=
  ⟨newChat now date, rfl, rfl, rfl, rfl, rfl⟩

/-- C8, as stated, fails: two `createNewChat` calls that read the same
millisecond (a non-decreasing sequence of clock readings) give two sessions
with the same id. -/
theorem createNewChats_same_millisecond_same_id :
    (clockReadings [(1700000000000, 1700000000000), (1700000000000, 1700000000000)]).Sorted
        (· ≤ ·) ∧
      ¬ ((createNewChats [(1700000000000, 1700000000000), (1700000000000, 1700000000000)]
          {}).chats.map (·.id)).Nodup := by
  decide

/-- C8, amended: when the `Date.now()` readings of the `createNewChat` calls
are strictly increasing, then starting from the empty list the ids of the
resulting sessions are pairwise distinct, and the list holds the created
sessions newest first (in the reverse of the order of their creation). -/
theorem createNewChats_distinct_ids_newest_first (clock : List (Nat × Nat)) (w : World)
    (hempty : w.chats = []) (hclock : (clock.map (·.1)).Sorted (· < ·)) :
    ((createNewChats clock w).chats.map (·.id)).Nodup ∧
      (createNewChats clock w).chats = clock.reverse.map (fun r => newChat r.1 r.2) := by
  have hchats := createNewChats_chats clock w
  rw [hempty, List.append_nil] at hchats
  refine ⟨?_, hchats⟩
  rw [hchats]
  have hids : (clock.reverse.map (fun r => newChat r.1 r.2)).map (·.id) =
      ((clock.map (·.1)).reverse).map (fun n => some (numberToString n)) := by
    simp [newChat, List.map_reverse]
  rw [hids]
  refine List.Nodup.map ?_ (List.nodup_reverse.mpr hclock.nodup)
  intro a b hab
  exact numberToString_injective (Option.some.inj hab)

/-- Witness of `createNewChats_distinct_ids_newest_first`: three calls at
three different milliseconds. -/
theorem createNewChats_distinct_ids_newest_first_witness :
    ((createNewChats [(1000, 1000), (1001, 1002), (1005, 1005)] {}).chats.map (·.id)).Nodup ∧
      (createNewChats [(1000, 1000), (1001, 1002), (1005, 1005)] {}).chats =
        [(1000, 1000), (1001, 1002), (1005, 1005)].reverse.map (fun r => newChat r.1 r.2) :=
  createNewChats_distinct_ids_newest_first [(1000, 1000), (1001, 1002), (1005, 1005)] {}
    rfl (by decide)

/-- C9: `updateChat(id, u)` with a record `u` that has no `id` yields a list
of the same length and order: position by position, a session with that id
has every field of `u` set to the value of `u` and every other field
unchanged, and a session with another id is unchanged; when no session has
that id the list is unchanged.  The function is total, so nothing is
raised. -/
theorem updateChat_is_shallow_merge (closureCurrent : Option Chat) (chatId : Option String)
    (u : ChatUpdates) (w : World) (hid : u.id = none) :
    List.Forall₂
        (fun s s' => (s.id = chatId → IsShallowMerge s u s') ∧ (s.id ≠ chatId → s' = s))
        w.chats (updateChat closureCurrent chatId u w).chats ∧
      (updateChat closureCurrent chatId u w).chats.length = w.chats.length ∧
      (updateChat closureCurrent chatId u w).chats.map (·.id) = w.chats.map (·.id) ∧
      ((∀ s ∈ w.chats, s.id ≠ chatId) →
        (updateChat closureCurrent chatId u w).chats = w.chats) := by
  refine ⟨?_, ?_, ?_, ?_⟩
  · refine (updateChat_chats_forall₂ closureCurrent chatId u w).imp ?_
    intro s s' hs
    subst hs
    constructor
    · intro h; rw [if_pos h]; exact spread_isShallowMerge s u
    · intro h; rw [if_neg h]
  · simp [updateChat]
  · simp only [updateChat, List.map_map]
    apply List.map_congr_left
    intro s _
    by_cases h : s.id = chatId <;> simp [h, Chat.spread, hid]
  · intro h
    simp only [updateChat]
    conv_rhs => rw [← List.map_id w.chats]
    apply List.map_congr_left
    intro s hs
    simp [h s hs]

/-- Witness of `updateChat_is_shallow_merge`: a new model is written to the
session "1000" of a list of two sessions. -/
theorem updateChat_is_shallow_merge_witness :
    List.Forall₂
        (fun s s' =>
          (s.id = some "1000" →
            IsShallowMerge s { model := some (some "gemini-1.5-pro") } s') ∧
          (s.id ≠ some "1000" → s' = s))
        (createNewChats [(1000, 1000), (1001, 1001)] {}).chats
        (updateChat none (some "1000") { model := some (some "gemini-1.5-pro") }
          (createNewChats [(1000, 1000), (1001, 1001)] {})).chats ∧
      (updateChat none (some "1000") { model := some (some "gemini-1.5-pro") }
          (createNewChats [(1000, 1000), (1001, 1001)] {})).chats.length =
        (createNewChats [(1000, 1000), (1001, 1001)] {}).chats.length ∧
      (updateChat none (some "1000") { model := some (some "gemini-1.5-pro") }
          (createNewChats [(1000, 1000), (1001, 1001)] {})).chats.map (·.id) =
        (createNewChats [(1000, 1000), (1001, 1001)] {}).chats.map (·.id) ∧
      ((∀ s ∈ (createNewChats [(1000, 1000), (1001, 1001)] {}).chats, s.id ≠ some "1000") →
        (updateChat none (some "1000") { model := some (some "gemini-1.5-pro") }
          (createNewChats [(1000, 1000), (1001, 1001)] {})).chats =
          (createNewChats [(1000, 1000), (1001, 1001)] {}).chats) :=
  updateChat_is_shallow_merge none (some "1000") { model := some (some "gemini-1.5-pro") }
    (createNewChats [(1000, 1000), (1001, 1001)] {}) rfl

/-- C10: `deleteChat(id)`, called from the latest render, yields the list
without the sessions whose id is `id`, the other sessions unchanged and in
their order; the current session becomes absent when its id is `id` and is
unchanged otherwise. -/
theorem deleteChat_removes_matching (chatId : Option String) (w : World) :
    (deleteChat w.currentChat chatId w).chats = w.chats.filter (fun s => s.id ≠ chatId) ∧
      (deleteChat w.currentChat chatId w).chats.Sublist w.chats ∧
      (∀ s, s ∈ (deleteChat w.currentChat chatId w).chats ↔ s ∈ w.chats ∧ s.id ≠ chatId) ∧
      (∀ c, w.currentChat = some c → c.id = chatId →
        (deleteChat w.currentChat chatId w).currentChat = none) ∧
      (∀ c, w.currentChat = some c → c.id ≠ chatId →
        (deleteChat w.currentChat chatId w).currentChat = some c) ∧
      (w.currentChat = none → (deleteChat w.currentChat chatId w).currentChat = none) := by
  refine ⟨rfl, List.filter_sublist _, ?_, ?_, ?_, ?_⟩
  · intro s; simp [deleteChat]
  · intro c hc hid; simp [deleteChat, hc, hid]
  · intro c hc hid; simp [deleteChat, hc, hid]
  · intro hc; simp [deleteChat, hc]

/-- C11: the optimistic append of `handleSendMessage` is strictly additive.
For a selected session with the `n` messages `M`, the message list that is
written has length `n + 1`, its first `n` elements are `M`, unchanged and in
their order, and its last element is the new user message; this list is what
every session of the list with the selected id, and the current session, hold
after the append. -/
theorem sendStart_append_is_additive (clk : SendClock) (w : World) (c : Chat)
    (M : List Message) (apiKey : String)
    (hsel : w.currentChat = some c) (hM : c.messages = some M)
    (htext : trim w.message ≠ "") (hidle : w.isLoading = false)
    (hkey : getItem w.storage "gemini-api-key" = some apiKey) (hkey' : apiKey ≠ "") :
    ∃ written : List Message,
      (sendStart clk w).2.map (·.updatedMessages) = some written ∧
      written.length = M.length + 1 ∧
      written.take M.length = M ∧
      written.getLast? =
        some { id := numberToString clk.userMessageId, role := "user",
               content := some (trim w.message),
               timestamp := toISOString clk.userMessageTime } ∧
      (∀ s ∈ (sendStart clk w).1.chats, s.id = c.id → s.messages = some written) ∧
      (sendStart clk w).1.currentChat.bind (·.messages) = some written ∧
      (sendStart clk w).1.chats.map (·.id) = w.chats.map (·.id) := by
  refine ⟨M ++ [userMessage clk.userMessageId clk.userMessageTime w.message], ?_, ?_, ?_, ?_,
    ?_, ?_, ?_⟩
  · simp [sendStart_of_selected clk w c apiKey hsel htext hidle hkey hkey', hM]
  · simp
  · simp
  · simp [userMessage]
  · intro s hs hid
    simp only [sendStart_of_selected clk w c apiKey hsel htext hidle hkey hkey', updateChat,
      List.mem_map] at hs
    obtain ⟨s0, _, rfl⟩ := hs
    by_cases h : s0.id = c.id
    · simp [h, Chat.spread, hM]
    · rw [if_neg h] at hid; exact absurd hid h
  · simp [sendStart_of_selected clk w c apiKey hsel htext hidle hkey hkey', updateChat,
      spreadOnto, Chat.spread, hsel, hM]
  · simp only [sendStart_of_selected clk w c apiKey hsel htext hidle hkey hkey', updateChat,
      List.map_map]
    apply List.map_congr_left
    intro s _
    by_cases h : s.id = c.id <;> simp [h, Chat.spread]

/-- Witness of `sendStart_append_is_additive`: a send on `exampleChat`,
which has two messages. -/
theorem sendStart_append_is_additive_witness :
    ∃ written : List Message,
      (sendStart exampleSendClock exampleWorld).2.map (·.updatedMessages) = some written ∧
      written.length = [exampleQuestion, exampleAnswer].length + 1 ∧
      written.take [exampleQuestion, exampleAnswer].length = [exampleQuestion, exampleAnswer] ∧
      written.getLast? =
        some { id := numberToString exampleSendClock.userMessageId, role := "user",
               content := some (trim exampleWorld.message),
               timestamp := toISOString exampleSendClock.userMessageTime } ∧
      (∀ s ∈ (sendStart exampleSendClock exampleWorld).1.chats, s.id = exampleChat.id →
        s.messages = some written) ∧
      (sendStart exampleSendClock exampleWorld).1.currentChat.bind (·.messages) = some written ∧
      (sendStart exampleSendClock exampleWorld).1.chats.map (·.id) =
        exampleWorld.chats.map (·.id) :=
  sendStart_append_is_additive exampleSendClock exampleWorld exampleChat
    [exampleQuestion, exampleAnswer] "secret" rfl rfl (by decide) rfl rfl (by decide)

/-- C12, on a stored text that is not JSON: when "pishoo-chats" holds a text
that is not empty and that `JSON.parse` rejects, the load effect ends in the
exception of `JSON.parse`, since it has no `try`; no session list is set. -/
theorem loadChatsEffect_raises_on_bad_text (parse : String → Option (List Chat)) (w : World)
    (savedChats : String) (hstored : getItem w.storage "pishoo-chats" = some savedChats)
    (hne : savedChats ≠ "") (hbad : parse savedChats = none) :
    loadChatsEffect parse w = .error "SyntaxError" := by
  simp [loadChatsEffect, hstored, hne, hbad]

/-- Witness of `loadChatsEffect_raises_on_bad_text`: the store holds the text
`not json` under "pishoo-chats". -/
theorem loadChatsEffect_raises_on_bad_text_witness :
    loadChatsEffect exampleParse exampleWorldBadStore = .error "SyntaxError" :=
  loadChatsEffect_raises_on_bad_text exampleParse exampleWorldBadStore "not json" rfl
    (by decide) rfl

/-- C13: after the render that follows `createNewChat`, `updateChat` or
`deleteChat`, the value stored under "pishoo-chats" is the serialisation of
the whole session list of that moment, and the save effect leaves the list as
it is. -/
theorem saveChatsEffect_stores_whole_list (stringify : List Chat → String) (w : World)
    (now date : Nat) (closureCurrent : Option Chat) (chatId : Option String)
    (updates : ChatUpdates) :
    (getItem (saveChatsEffect stringify (createNewChat now date w)).storage "pishoo-chats" =
        some (stringify (newChat now date :: w.chats)) ∧
      (saveChatsEffect stringify (createNewChat now date w)).chats =
        newChat now date :: w.chats) ∧
    (getItem (saveChatsEffect stringify (updateChat closureCurrent chatId updates w)).storage
          "pishoo-chats" =
        some (stringify (updateChat closureCurrent chatId updates w).chats) ∧
      (saveChatsEffect stringify (updateChat closureCurrent chatId updates w)).chats =
        (updateChat closureCurrent chatId updates w).chats) ∧
    (getItem (saveChatsEffect stringify (deleteChat closureCurrent chatId w)).storage
          "pishoo-chats" =
        some (stringify (deleteChat closureCurrent chatId w).chats) ∧
      (saveChatsEffect stringify (deleteChat closureCurrent chatId w)).chats =
        (deleteChat closureCurrent chatId w).chats) ∧
    ((saveChatsEffect stringify w).storage.filter (fun entry => entry.1 = "pishoo-chats")).length
      = 1 :=
  ⟨saveChatsEffect_stored stringify (createNewChat now date w),
    saveChatsEffect_stored stringify (updateChat closureCurrent chatId updates w),
    saveChatsEffect_stored stringify (deleteChat closureCurrent chatId w),
    by simp [saveChatsEffect, setItem, removeItem, List.filter_filter]⟩

/-- C14 at a response with status 200 whose first part has no `text`: the
send does not fail.  An assistant message whose content is `undefined` is
appended after the user message, which stays in the session. -/
theorem handleSendMessage_appends_missing_text :
    (handleSendMessage exampleSendClock exampleResponseNoText exampleReplyClock
        exampleWorld).currentChat.bind (·.messages) =
      some [exampleQuestion, exampleAnswer,
        { id := "1700000100000", role := "user", content := some "How are you?",
          timestamp := "2023-11-14T22:15:00.000Z" },
        { id := "1700000102001", role := "assistant", content := none,
          timestamp := "2023-11-14T22:15:02.000Z" }] ∧
      (handleSendMessage exampleSendClock exampleResponseNoText exampleReplyClock
        exampleWorld).chats.head?.bind (·.messages) =
      some [exampleQuestion, exampleAnswer,
        { id := "1700000100000", role := "user", content := some "How are you?",
          timestamp := "2023-11-14T22:15:00.000Z" },
        { id := "1700000102001", role := "assistant", content := none,
          timestamp := "2023-11-14T22:15:02.000Z" }] ∧
      (handleSendMessage exampleSendClock exampleResponseNoText exampleReplyClock
        exampleWorld).toasts = [] := by
  decide

/-- C15: the one request of an accepted send is a POST to the URL made of the
endpoint, the selected model `m`, `:generateContent?key=` and the credential
`k`; its body is `{contents: [{parts: [{text: t}]}]}` with `t` the trimmed
text and nothing else, and its only header is the content type.  The headers
and the body are the same for every other credential, and no further request
is made until the handler ends. -/
theorem sendStart_request_shape (clk : SendClock) (w : World) (k : String)
    (htext : trim w.message ≠ "") (hidle : w.isLoading = false)
    (hkey : getItem w.storage "gemini-api-key" = some k) (hkey' : k ≠ "") :
    (sendStart clk w).1.requests = w.requests ++
        [{ url := "https://generativelanguage.googleapis.com/v1beta/models/" ++
             w.selectedModel ++ ":generateContent?key=" ++ k
           method := "POST"
           headers := [("Content-Type", "application/json")]
           body := { contents := [{ parts := [{ text := trim w.message }] }] } }] ∧
      (∀ outcome rclk, (handleSendMessage clk outcome rclk w).requests =
        (sendStart clk w).1.requests) ∧
      (∀ (storage : Storage) (k' : String),
        getItem storage "gemini-api-key" = some k' → k' ≠ "" →
        ((sendStart clk { w with storage := storage }).1.requests.map
            fun r => (r.method, r.headers, r.body)) =
          (sendStart clk w).1.requests.map fun r => (r.method, r.headers, r.body)) := by
  refine ⟨?_, ?_, ?_⟩
  · rw [sendStart_requests clk w k htext hidle hkey hkey']
    rfl
  · intro outcome rclk
    exact handleSendMessage_requests clk outcome rclk w
  · intro storage k' hk hk'
    rw [sendStart_requests clk w k htext hidle hkey hkey',
      sendStart_requests clk { w with storage := storage } k' htext hidle hk hk']
    simp [completionRequest]

/-- Witness of `sendStart_request_shape`: the request of a send in
`exampleWorld`. -/
theorem sendStart_request_shape_witness :
    (sendStart exampleSendClock exampleWorld).1.requests =
      [{ url := "https://generativelanguage.googleapis.com/v1beta/models/" ++
           "gemini-1.5-pro:generateContent?key=secret"
         method := "POST"
         headers := [("Content-Type", "application/json")]
         body := { contents := [{ parts := [{ text := "How are you?" }] }] } }] :=
  (sendStart_request_shape exampleSendClock exampleWorld "secret" (by decide) rfl rfl
    (by decide)).1

/-- C17: loading the settings gives each field the default when its key is
absent (credential empty, font size "medium", autosave true, sound false);
autosave loads as false exactly when the stored string is "false", sound
loads as true exactly when the stored string is "true"; and each field
depends on its own key only. -/
theorem loadSettingsEffect_defaults (w : World) :
    (getItem w.storage "gemini-api-key" = none → (loadSettingsEffect w).apiKey = "") ∧
    (getItem w.storage "pishoo-font-size" = none →
      (loadSettingsEffect w).fontSize = .string "medium") ∧
    (getItem w.storage "pishoo-auto-save" = none → (loadSettingsEffect w).autoSave = true) ∧
    (getItem w.storage "pishoo-sound-enabled" = none →
      (loadSettingsEffect w).soundEnabled = false) ∧
    ((loadSettingsEffect w).autoSave = false ↔
      getItem w.storage "pishoo-auto-save" = some "false") ∧
    ((loadSettingsEffect w).soundEnabled = true ↔
      getItem w.storage "pishoo-sound-enabled" = some "true") ∧
    (∀ w' : World,
      (getItem w'.storage "gemini-api-key" = getItem w.storage "gemini-api-key" →
        (loadSettingsEffect w').apiKey = (loadSettingsEffect w).apiKey) ∧
      (getItem w'.storage "pishoo-font-size" = getItem w.storage "pishoo-font-size" →
        (loadSettingsEffect w').fontSize = (loadSettingsEffect w).fontSize) ∧
      (getItem w'.storage "pishoo-auto-save" = getItem w.storage "pishoo-auto-save" →
        (loadSettingsEffect w').autoSave = (loadSettingsEffect w).autoSave) ∧
      (getItem w'.storage "pishoo-sound-enabled" = getItem w.storage "pishoo-sound-enabled" →
        (loadSettingsEffect w').soundEnabled = (loadSettingsEffect w).soundEnabled)) := by
  refine ⟨?_, ?_, ?_, ?_, ?_, ?_, ?_⟩
  · intro h; simp [loadSettingsEffect, h, orString]
  · intro h; simp [loadSettingsEffect, h, orString]
  · intro h; simp [loadSettingsEffect, h]
  · intro h; simp [loadSettingsEffect, h]
  · simp [loadSettingsEffect]
  · simp [loadSettingsEffect]
  · intro w'
    refine ⟨?_, ?_, ?_, ?_⟩ <;> intro h <;> simp [loadSettingsEffect, h]

/-- C18: the object that `exportSettings` serialises has the properties
`fontSize`, `autoSave`, `soundEnabled`, `theme` and `exportedAt` and no
other, all of them written to the file when the font size and the theme are
defined; the object is the same for every credential, typed or stored, at the
same clock reading. -/
theorem exportSettings_hides_credential (now : Nat) (w : World) :
    (exportSettings now w).2.map (·.1) =
        ["fontSize", "autoSave", "soundEnabled", "theme", "exportedAt"] ∧
      (w.fontSize ≠ .undefined → w.theme ≠ .undefined →
        (writtenProperties (exportSettings now w).2).map (·.1) =
          ["fontSize", "autoSave", "soundEnabled", "theme", "exportedAt"]) ∧
      (∀ (apiKey : String) (storage : Storage),
        (exportSettings now { w with apiKey := apiKey, storage := storage }).2 =
          (exportSettings now w).2) := by
  refine ⟨rfl, ?_, fun _ _ => rfl⟩
  intro hf ht
  simp [exportSettings, writtenProperties, hf, ht]

/-- C19: the import of a file that is not JSON, through `importChat` or
through `importSettings`, shows an error and changes nothing else: the
session list, the current session, the settings in memory and the store keep
their values. -/
theorem import_of_bad_file_changes_nothing (clk : ImportClock) (w : World) :
    (importChat (some .invalid) clk w =
        { w with
          toasts := w.toasts ++ [Toast.error "Failed to import chat: Invalid file format"] } ∧
      (importChat (some .invalid) clk w).chats = w.chats ∧
      (importChat (some .invalid) clk w).currentChat = w.currentChat ∧
      (importChat (some .invalid) clk w).storage = w.storage ∧
      (importChat (some .invalid) clk w).apiKey = w.apiKey ∧
      (importChat (some .invalid) clk w).fontSize = w.fontSize ∧
      (importChat (some .invalid) clk w).autoSave = w.autoSave ∧
      (importChat (some .invalid) clk w).soundEnabled = w.soundEnabled ∧
      (importChat (some .invalid) clk w).theme = w.theme) ∧
    (importSettings (some .invalid) w =
        { w with
          toasts := w.toasts ++
            [Toast.error "Failed to import settings: Invalid file format"] } ∧
      (importSettings (some .invalid) w).chats = w.chats ∧
      (importSettings (some .invalid) w).currentChat = w.currentChat ∧
      (importSettings (some .invalid) w).storage = w.storage ∧
      (importSettings (some .invalid) w).apiKey = w.apiKey ∧
      (importSettings (some .invalid) w).fontSize = w.fontSize ∧
      (importSettings (some .invalid) w).autoSave = w.autoSave ∧
      (importSettings (some .invalid) w).soundEnabled = w.soundEnabled ∧
      (importSettings (some .invalid) w).theme = w.theme) :=
  ⟨⟨rfl, rfl, rfl, rfl, rfl, rfl, rfl, rfl, rfl⟩, ⟨rfl, rfl, rfl, rfl, rfl, rfl, rfl, rfl, rfl⟩⟩

/-- C20: after a confirmed `clearAllData` no key is left in the store, so
neither the four settings keys nor the session key, and the settings in
memory are the defaults: empty credential, font size "medium", autosave true,
sound false. -/
theorem clearAllData_clears_store_and_settings (w : World) :
    (∀ key, getItem (clearAllData true w).storage key = none) ∧
      getItem (clearAllData true w).storage "gemini-api-key" = none ∧
      getItem (clearAllData true w).storage "pishoo-font-size" = none ∧
      getItem (clearAllData true w).storage "pishoo-auto-save" = none ∧
      getItem (clearAllData true w).storage "pishoo-sound-enabled" = none ∧
      getItem (clearAllData true w).storage "pishoo-chats" = none ∧
      (clearAllData true w).apiKey = "" ∧
      (clearAllData true w).fontSize = .string "medium" ∧
      (clearAllData true w).autoSave = true ∧
      (clearAllData true w).soundEnabled = false :=
  ⟨fun _ => rfl, rfl, rfl, rfl, rfl, rfl, rfl, rfl, rfl, rfl⟩

/-- C22 at a selection made while a send is in flight: `exampleChat` (A) is
selected and a send on it starts, then the user selects the other session of
the list (B), then the request ends.  The record of B in the list is
unchanged, but the current session, which is B, now carries the messages of
A: with the reply after a success, and the messages A had before the send
after a failure.  The `updateChat` that the handler captured tests the
`currentChat` of its own render, which is A, and merges into the current
one. -/
theorem settle_after_selection_overwrites_view :
    (run { world := exampleWorld }
        [.send exampleSendClock, .selectChat 1,
          .settle 0 (successResponse 200 "OK" "Fine" [] []) exampleReplyClock]).world.currentChat =
      some { newChat 1690000000000 1690000000000 with
        messages := some [exampleQuestion, exampleAnswer,
          { id := "1700000100000", role := "user", content := some "How are you?",
            timestamp := "2023-11-14T22:15:00.000Z" },
          { id := "1700000102001", role := "assistant", content := some "Fine",
            timestamp := "2023-11-14T22:15:02.000Z" }] } ∧
    (run { world := exampleWorld }
        [.send exampleSendClock, .selectChat 1,
          .settle 0 (.rejected "Failed to fetch") exampleReplyClock]).world.currentChat =
      some { newChat 1690000000000 1690000000000 with
        messages := some [exampleQuestion, exampleAnswer] } ∧
    (run { world := exampleWorld }
        [.send exampleSendClock, .selectChat 1]).world.currentChat =
      some (newChat 1690000000000 1690000000000) ∧
    (run { world := exampleWorld }
        [.send exampleSendClock, .selectChat 1,
          .settle 0 (successResponse 200 "OK" "Fine" [] []) exampleReplyClock]).world.chats.get? 1 =
      some (newChat 1690000000000 1690000000000) := by
  decide

/-- C23 at a state with two sessions: a confirmed `clearAllData` leaves the
session list of `App` as it is, and the save effect after the next
`createNewChat` writes the two sessions back under "pishoo-chats", after the
new one. -/
theorem clearAllData_keeps_sessions (stringify : List Chat → String) :
    (clearAllData true exampleWorld).chats =
        [exampleChat, newChat 1690000000000 1690000000000] ∧
      getItem (clearAllData true exampleWorld).storage "pishoo-chats" = none ∧
      getItem (saveChatsEffect stringify
          (createNewChat 1700000300000 1700000300000
            (clearAllData true exampleWorld))).storage "pishoo-chats" =
        some (stringify [newChat 1700000300000 1700000300000, exampleChat,
          newChat 1690000000000 1690000000000]) :=
  ⟨rfl, rfl, getItem_setItem _ _ _⟩

/-- C24: in every state reached from an empty session list with no current
session through new chats, selections, sends with any outcome, chat imports
of any file and deletions (and edits of the text, picks of a model and
exports), every message of every session of the list has the role "user" or
"assistant". -/
theorem run_roles_are_closed (w0 : World) (events : List Event)
    (hchats : w0.chats = []) (hcur : w0.currentChat = none) :
    ∀ s ∈ (run { world := w0 } events).world.chats, ∀ ms, s.messages = some ms →
      ∀ m ∈ ms, m.role = "user" ∨ m.role = "assistant" := by
  have hinit : WorldClosedRoles w0 ∧
      ∀ p ∈ ({ world := w0 } : Running).inFlight, PendingClosedRoles p := by
    refine ⟨⟨?_, ?_⟩, ?_⟩
    · intro s hs; rw [hchats] at hs; simp at hs
    · intro c hc; rw [hcur] at hc; simp at hc
    · intro p hp; simp at hp
  exact (run_closedRoles events { world := w0 } hinit).1.1

/-- Witness of `run_roles_are_closed`: after `exampleEvents`, which import a
file with a message of the role "system", the list holds two sessions: the
one made by the import, with no message, and the older one, with a user and
an assistant message. -/
theorem run_roles_are_closed_witness :
    (run { world := exampleWorldNoChat } exampleEvents).world.chats.map
        (fun s => s.messages.map (·.map (·.role))) =
      [some [], some ["user", "assistant"]] ∧
    ∀ s ∈ (run { world := exampleWorldNoChat } exampleEvents).world.chats, ∀ ms,
      s.messages = some ms → ∀ m ∈ ms, m.role = "user" ∨ m.role = "assistant" :=
  ⟨by decide, run_roles_are_closed exampleWorldNoChat exampleEvents rfl rfl⟩

/-- C25, as stated, fails: on a new session, a first send whose reply is
read at 1700000000500 and a second send read at 1700000000501 (the clock
readings never decrease) leave the session with two messages of the id
"1700000000501", the reply of the first send and the user message of the
second. -/
theorem sendRounds_message_id_collision :
    (roundReadings exampleRounds).Sorted (· ≤ ·) ∧
      ((sendRounds exampleWorldFresh exampleRounds).currentChat.bind (·.messages)).map
          (·.map (·.id)) =
        some ["1700000000000", "1700000000501", "1700000000501", "1700000001001"] ∧
      ((sendRounds exampleWorldFresh exampleRounds).chats.head?.bind (·.messages)).map
          (·.map (·.id)) =
        some ["1700000000000", "1700000000501", "1700000000501", "1700000001001"] ∧
      ¬ ["1700000000000", "1700000000501", "1700000000501", "1700000001001"].Nodup := by
  decide

/-- C25, amended: on a selected session with no message, after any sequence
of sends, each run to its end, in which the reply of a send is read no
earlier than the send and every send is read more than one millisecond after
the reply before it, the ids of the messages of the session are pairwise
distinct, in the current session and in every session of the list with its
id. -/
theorem sendRounds_distinct_message_ids (w : World) (c : Chat) (rounds : List SendRound)
    (hsel : w.currentChat = some c) (hM : c.messages = some []) (hidle : w.isLoading = false)
    (hlist : ∀ s ∈ w.chats, s.id = c.id → s.messages = some [])
    (hreply : ∀ r ∈ rounds, r.clk.userMessageId ≤ r.rclk.assistantId)
    (hspaced : rounds.Chain' (fun r1 r2 => r1.rclk.assistantId + 1 < r2.clk.userMessageId)) :
    ∃ c' ms', (sendRounds w rounds).currentChat = some c' ∧ c'.id = c.id ∧
      c'.messages = some ms' ∧ (ms'.map (·.id)).Nodup ∧
      ∀ s ∈ (sendRounds w rounds).chats, s.id = c.id → s.messages = some ms' :=
  sendRounds_message_ids rounds w c [] [] hsel hM hidle hlist rfl List.sorted_nil hreply hspaced
    (by simp)

/-- Witness of `sendRounds_distinct_message_ids`: the two sends of
`exampleRoundsSpaced` on a new session. -/
theorem sendRounds_distinct_message_ids_witness :
    ∃ c' ms', (sendRounds exampleWorldFresh exampleRoundsSpaced).currentChat = some c' ∧
      c'.id = (newChat 1700000000000 1700000000000).id ∧
      c'.messages = some ms' ∧ (ms'.map (·.id)).Nodup ∧
      ∀ s ∈ (sendRounds exampleWorldFresh exampleRoundsSpaced).chats,
        s.id = (newChat 1700000000000 1700000000000).id → s.messages = some ms' :=
  sendRounds_distinct_message_ids exampleWorldFresh (newChat 1700000000000 1700000000000)
    exampleRoundsSpaced rfl rfl rfl (by decide) (by decide)
    (List.chain'_cons.mpr ⟨by decide, List.chain'_singleton _⟩)

/-- C26, as stated, fails: from an empty store, the import of a settings
file with the font size "huge" leaves "huge" as the font size in memory and
in the store. -/
theorem importSettings_font_size_outside_enum :
    (settingsRun {} [.importFile (some (.parsed { fontSize := .string "huge" }))]).fontSize =
        .string "huge" ∧
      getItem
          (settingsRun {} [.importFile (some (.parsed { fontSize := .string "huge" }))]).storage
          "pishoo-font-size" = some "huge" := by
  decide

/-- C26, amended: from an empty store and the font size "medium", after any
sequence of picks in the font size selector, confirmed or declined
`clearAllData` and imports of settings files whose `fontSize`, when it is
truthy, is one of "small", "medium", "large", the font size in memory is one
of the three, and the stored font size is absent or one of the three. -/
theorem settingsRun_font_size_in_enum (w0 : World) (events : List SettingsEvent)
    (hstore : w0.storage = []) (hfont : w0.fontSize = .string "medium")
    (hfiles : ∀ e ∈ events, ImportsFontEnum e) :
    InFontEnum (settingsRun w0 events).fontSize ∧
      (getItem (settingsRun w0 events).storage "pishoo-font-size" = none ∨
        ∃ v, getItem (settingsRun w0 events).storage "pishoo-font-size" = some v ∧
          InFontEnum (.string v)) := by
  refine settingsRun_font_size events w0 hfiles ⟨?_, Or.inl ?_⟩
  · rw [hfont]; exact Or.inr (Or.inl rfl)
  · rw [hstore]; rfl

/-- Witness of `settingsRun_font_size_in_enum`: a pick of "large", the import
of a file with the font size "small" and of a file without one. -/
theorem settingsRun_font_size_in_enum_witness :
    InFontEnum (settingsRun {} [.pickFontSize .large,
        .importFile (some (.parsed { fontSize := .string "small" })),
        .importFile (some (.parsed { autoSave := .bool false }))]).fontSize ∧
      (getItem (settingsRun {} [.pickFontSize .large,
          .importFile (some (.parsed { fontSize := .string "small" })),
          .importFile (some (.parsed { autoSave := .bool false }))]).storage
          "pishoo-font-size" = none ∨
        ∃ v, getItem (settingsRun {} [.pickFontSize .large,
            .importFile (some (.parsed { fontSize := .string "small" })),
            .importFile (some (.parsed { autoSave := .bool false }))]).storage
            "pishoo-font-size" = some v ∧ InFontEnum (.string v)) :=
  settingsRun_font_size_in_enum {} [.pickFontSize .large,
      .importFile (some (.parsed { fontSize := .string "small" })),
      .importFile (some (.parsed { autoSave := .bool false }))] rfl rfl
    (by
      intro e he settings hs ht
      simp only [List.mem_cons, List.mem_singleton, List.not_mem_nil, or_false] at he
      rcases he with rfl | rfl | rfl
      · cases hs
      · cases hs; exact Or.inl rfl
      · cases hs; cases ht)

/-- C27: after a failed send on a selected session, the session has the id,
the title and the `createdAt` it had before, and the messages it had before,
but its model is the model selected at the time of the send: the rollback
writes the messages back and nothing else.  This holds for the current
session and, position by position, for every session of the list with its id;
the other sessions of the list are unchanged. -/
theorem handleSendMessage_failure_keeps_model (clk : SendClock) (outcome : FetchOutcome)
    (rclk : ReplyClock) (w : World) (c : Chat) (M : List Message) (apiKey : String)
    (hsel : w.currentChat = some c) (hM : c.messages = some M)
    (htext : trim w.message ≠ "") (hidle : w.isLoading = false)
    (hkey : getItem w.storage "gemini-api-key" = some apiKey) (hkey' : apiKey ≠ "")
    (hfail : (∃ message, outcome = .rejected message) ∨
      (∃ status statusText json, outcome = .response false status statusText json)) :
    (∃ c', (handleSendMessage clk outcome rclk w).currentChat = some c' ∧
        c'.id = c.id ∧ c'.title = c.title ∧ c'.createdAt = c.createdAt ∧
        c'.messages = some M ∧ c'.model = some w.selectedModel) ∧
      List.Forall₂
        (fun s s' =>
          (s.id = c.id → s'.id = s.id ∧ s'.title = s.title ∧ s'.createdAt = s.createdAt ∧
            s'.messages = some M ∧ s'.model = some w.selectedModel) ∧
          (s.id ≠ c.id → s' = s))
        w.chats (handleSendMessage clk outcome rclk w).chats := by
  obtain ⟨hcur, hchats⟩ :=
    handleSendMessage_failure_world clk outcome rclk w c apiKey hsel htext hidle hkey hkey' hfail
  refine ⟨⟨_, hcur, rfl, rfl, rfl, hM, rfl⟩, ?_⟩
  rw [hchats, List.forall₂_map_right_iff]
  refine List.forall₂_same.mpr ?_
  intro s _
  by_cases h : s.id = c.id <;> simp [h, hM]

/-- Witness of `handleSendMessage_failure_keeps_model`: a send on
`exampleChat` with another model selected gets the status 500. -/
theorem handleSendMessage_failure_keeps_model_witness :
    ∃ c', (handleSendMessage exampleSendClock (.response false 500 "Internal Server Error"
          (.error "Unexpected end of JSON input")) exampleReplyClock
          { exampleWorld with selectedModel := "gemini-1.0-pro" }).currentChat = some c' ∧
      c'.id = exampleChat.id ∧ c'.title = exampleChat.title ∧
      c'.createdAt = exampleChat.createdAt ∧
      c'.messages = some [exampleQuestion, exampleAnswer] ∧
      c'.model = some "gemini-1.0-pro" :=
  (handleSendMessage_failure_keeps_model exampleSendClock
    (.response false 500 "Internal Server Error" (.error "Unexpected end of JSON input"))
    exampleReplyClock { exampleWorld with selectedModel := "gemini-1.0-pro" } exampleChat
    [exampleQuestion, exampleAnswer] "secret" rfl rfl (by decide) rfl rfl (by decide)
    (Or.inr ⟨500, "Internal Server Error", .error "Unexpected end of JSON input", rfl⟩)).1

/-- C28: for every object that a settings file parses to, `importSettings`
writes the font size (in memory and in the store) when the `fontSize` of the
file is truthy, the autosave flag when its `autoSave` is a boolean and the
sound flag when its `soundEnabled` is a boolean; in every other case the
setting keeps the value it has, in memory and in the store, and is not put
back to its default.  The credential, typed or stored, is never changed. -/
theorem importSettings_changes_what_the_file_supplies (settings : SettingsData) (w : World) :
    ((settings.fontSize.truthy = true →
        (importSettings (some (.parsed settings)) w).fontSize = settings.fontSize ∧
        getItem (importSettings (some (.parsed settings)) w).storage "pishoo-font-size" =
          some settings.fontSize.toText) ∧
      (settings.fontSize.truthy = false →
        (importSettings (some (.parsed settings)) w).fontSize = w.fontSize ∧
        getItem (importSettings (some (.parsed settings)) w).storage "pishoo-font-size" =
          getItem w.storage "pishoo-font-size")) ∧
    ((∀ enabled, settings.autoSave = .bool enabled →
        (importSettings (some (.parsed settings)) w).autoSave = enabled ∧
        getItem (importSettings (some (.parsed settings)) w).storage "pishoo-auto-save" =
          some (if enabled then "true" else "false")) ∧
      ((∀ enabled, settings.autoSave ≠ .bool enabled) →
        (importSettings (some (.parsed settings)) w).autoSave = w.autoSave ∧
        getItem (importSettings (some (.parsed settings)) w).storage "pishoo-auto-save" =
          getItem w.storage "pishoo-auto-save")) ∧
    ((∀ enabled, settings.soundEnabled = .bool enabled →
        (importSettings (some (.parsed settings)) w).soundEnabled = enabled ∧
        getItem (importSettings (some (.parsed settings)) w).storage "pishoo-sound-enabled" =
          some (if enabled then "true" else "false")) ∧
      ((∀ enabled, settings.soundEnabled ≠ .bool enabled) →
        (importSettings (some (.parsed settings)) w).soundEnabled = w.soundEnabled ∧
        getItem (importSettings (some (.parsed settings)) w).storage "pishoo-sound-enabled" =
          getItem w.storage "pishoo-sound-enabled")) ∧
    (importSettings (some (.parsed settings)) w).apiKey = w.apiKey ∧
    getItem (importSettings (some (.parsed settings)) w).storage "gemini-api-key" =
      getItem w.storage "gemini-api-key" := by
  obtain ⟨hf, hfs, ha, has, hs, hss, hk, hks⟩ := importSettings_parsed settings w
  refine ⟨⟨?_, ?_⟩, ⟨?_, ?_⟩, ⟨?_, ?_⟩, hk, hks⟩
  · intro ht; rw [hf, hfs]; simp [ht]
  · intro ht; rw [hf, hfs]; simp [ht]
  · intro enabled he; rw [ha, has, he]; exact ⟨rfl, rfl⟩
  · intro hne
    rw [ha, has]
    cases he : settings.autoSave with
    | bool enabled => exact absurd he (hne enabled)
    | undefined => exact ⟨rfl, rfl⟩
    | null => exact ⟨rfl, rfl⟩
    | string s => exact ⟨rfl, rfl⟩
    | other truthy text => exact ⟨rfl, rfl⟩
  · intro enabled he; rw [hs, hss, he]; exact ⟨rfl, rfl⟩
  · intro hne
    rw [hs, hss]
    cases he : settings.soundEnabled with
    | bool enabled => exact absurd he (hne enabled)
    | undefined => exact ⟨rfl, rfl⟩
    | null => exact ⟨rfl, rfl⟩
    | string s => exact ⟨rfl, rfl⟩
    | other truthy text => exact ⟨rfl, rfl⟩

/-- C29: the autosave flag plays no role in what is saved.  For every
autosave flag in memory and every content of the rest of the store, the save
effect after `createNewChat`, `updateChat` or `deleteChat` writes the same
value under "pishoo-chats", the serialisation of the whole list; so it does
with autosave false. -/
theorem saveChatsEffect_ignores_autosave (stringify : List Chat → String) (w : World)
    (flag : Bool) (storage : Storage) (now date : Nat) (closureCurrent : Option Chat)
    (chatId : Option String) (updates : ChatUpdates) :
    (getItem (saveChatsEffect stringify
          (createNewChat now date { w with autoSave := flag, storage := storage })).storage
          "pishoo-chats" =
        getItem (saveChatsEffect stringify (createNewChat now date w)).storage
          "pishoo-chats") ∧
    (getItem (saveChatsEffect stringify
          (updateChat closureCurrent chatId updates
            { w with autoSave := flag, storage := storage })).storage "pishoo-chats" =
        getItem (saveChatsEffect stringify
          (updateChat closureCurrent chatId updates w)).storage "pishoo-chats") ∧
    (getItem (saveChatsEffect stringify
          (deleteChat closureCurrent chatId
            { w with autoSave := flag, storage := storage })).storage "pishoo-chats" =
        getItem (saveChatsEffect stringify
          (deleteChat closureCurrent chatId w)).storage "pishoo-chats") ∧
    getItem (saveChatsEffect stringify
        (createNewChat now date
          (saveAutoSave false w))).storage "pishoo-chats" =
      some (stringify (newChat now date :: w.chats)) := by
  refine ⟨?_, ?_, ?_, ?_⟩
  · rw [(saveChatsEffect_stored stringify _).1, (saveChatsEffect_stored stringify _).1]
    rfl
  · rw [(saveChatsEffect_stored stringify _).1, (saveChatsEffect_stored stringify _).1]
    rfl
  · rw [(saveChatsEffect_stored stringify _).1, (saveChatsEffect_stored stringify _).1]
    rfl
  · rw [(saveChatsEffect_stored stringify _).1]
    rfl

/-- C30 at a session created in the current millisecond: for `now` equal to
the creation time the number of days is 0, and `formatDate` returns
"-1 days ago", not "Today". -/
theorem formatDate_same_millisecond :
    formatDate (some 1700000000000) 1700000000000 "11/14/2023" = "-1 days ago" := by
  decide

end Pishoo
